import Mathlib

/-!
# WakeMeUp API server (`src/server/server.js`)

A shallow embedding of the Express handlers of `server.js` and of the parts of
the JavaScript runtime, the MySQL store and the crypto libraries they call.

* JavaScript strings are modelled by `String` (sequences of code points).  The
  source only compares against ASCII text (`'Bearer '`, `'Duplicate'`) and trims
  white space, all of which lies in the basic plane, so working on code points
  agrees with working on UTF-16 code units.
* JavaScript numbers are modelled by `JsNum`: `NaN`, the two infinities, or a
  finite value, carried as the rational it denotes.  The conversion of a
  string rounds its mathematical value to the nearest double, a tie going to
  the even significand, with underflow to `0` and overflow to `±Infinity`.
  `-0` is identified with `0`.
* Every asynchronous handler is run to completion: a handler is a function from
  the world before the request to its outcome and the world after it.  The
  interleaving of `getPool` callers at `await` points is modelled separately by
  `getPoolStep`.
-/

namespace WakeMeUp

/-! ## JavaScript values -/

/-- A JavaScript number: `NaN`, `+Infinity`, `-Infinity` or a finite value. -/
inductive JsNum where
  | nan
  | posInf
  | negInf
  | fin (q : ℚ)
  deriving DecidableEq

/-- The builtin `Number.isFinite` on a number. -/
def JsNum.isFinite : JsNum → Bool
  | .fin _ => true
  | _ => false

/-- Truthiness of a number: `0` and `NaN` are falsy. -/
def JsNum.truthy : JsNum → Bool
  | .nan => false
  | .fin q => decide (q ≠ 0)
  | _ => true

/-- A value a handler can find in a parsed JSON body, or `undefined` for a
property that is absent.  An object is the list of its own properties. -/
inductive JsVal where
  | undefined
  | null
  | bool (b : Bool)
  | num (x : JsNum)
  | str (s : String)
  | arr (xs : List JsVal)
  | obj (kvs : List (String × JsVal))

/-- Whether a value is truthy, as tested by `!v` and `||`. -/
def JsVal.truthy : JsVal → Bool
  | .undefined => false
  | .null => false
  | .bool b => b
  | .num x => x.truthy
  | .str s => decide (s ≠ "")
  | .arr _ => true
  | .obj _ => true

/-- Own-property lookup in a property list. -/
def lookupKey (k : String) : List (String × JsVal) → Option JsVal
  | [] => none
  | (k1, v) :: rest => if k1 = k then some v else lookupKey k rest

/-- Property read `v[k]` as done by the destructuring
`const \{ ... } = req.body || \{}`: an absent property reads as `undefined`.
Only own properties of objects are modelled; the property names the handlers
read (`email`, `password`, `name`, `latitude`, `longitude`) are not defined on
the prototypes of objects or arrays. -/
def JsVal.get (v : JsVal) (k : String) : JsVal :=
  match v with
  | .obj kvs => (lookupKey k kvs).getD .undefined
  | _ => .undefined

/-- A thrown value: `code` is the `code` property of a driver error when it has
one, `str` is what `String(e)` evaluates to. -/
structure JsErr where
  code : Option String
  str : String
  deriving DecidableEq

/-! ## Strings -/

/-- White space and line terminators, the characters removed by
`String.prototype.trim` and skipped around a numeric string. -/
def isJsWhiteSpace (c : Char) : Bool :=
  let n := c.toNat
  n == 0x09 || n == 0x0A || n == 0x0B || n == 0x0C || n == 0x0D || n == 0x20 ||
  n == 0xA0 || n == 0x1680 || (decide (0x2000 ≤ n) && decide (n ≤ 0x200A)) ||
  n == 0x2028 || n == 0x2029 || n == 0x202F || n == 0x205F || n == 0x3000 ||
  n == 0xFEFF

/-- Trimming on character lists: drop white space at both ends. -/
def trimChars (cs : List Char) : List Char :=
  ((cs.dropWhile isJsWhiteSpace).reverse.dropWhile isJsWhiteSpace).reverse

/-- The method `String.prototype.trim`. -/
def jsTrim (s : String) : String :=
  ⟨trimChars s.data⟩

/-- The method `String.prototype.startsWith`. -/
def jsStartsWith (s p : String) : Bool :=
  p.data.isPrefixOf s.data

/-- The method `String.prototype.slice` with one non-negative argument. -/
def jsSlice (s : String) (n : Nat) : String :=
  ⟨s.data.drop n⟩

/-- Whether `needle` occurs in `hay` as a contiguous run. -/
def includesChars (needle : List Char) : List Char → Bool
  | [] => needle.isEmpty
  | c :: cs => needle.isPrefixOf (c :: cs) || includesChars needle cs

/-- The method `String.prototype.includes`. -/
def jsIncludes (s needle : String) : Bool :=
  includesChars needle.data s.data

/-! ## Conversion to number -/

/-- Value of a decimal digit. -/
def decDigit (c : Char) : Option Nat :=
  if '0' ≤ c ∧ c ≤ '9' then some (c.toNat - '0'.toNat) else none

/-- Value of a hexadecimal digit. -/
def hexDigit (c : Char) : Option Nat :=
  if '0' ≤ c ∧ c ≤ '9' then some (c.toNat - '0'.toNat)
  else if 'a' ≤ c ∧ c ≤ 'f' then some (c.toNat - 'a'.toNat + 10)
  else if 'A' ≤ c ∧ c ≤ 'F' then some (c.toNat - 'A'.toNat + 10)
  else none

/-- Value of an octal digit. -/
def octDigit (c : Char) : Option Nat :=
  if '0' ≤ c ∧ c ≤ '7' then some (c.toNat - '0'.toNat) else none

/-- Value of a binary digit. -/
def binDigit (c : Char) : Option Nat :=
  if c = '0' then some 0 else if c = '1' then some 1 else none

/-- Longest run of digits at the front of the input, and what follows it. -/
def spanDigits (digit : Char → Option Nat) : List Char → List Nat × List Char
  | [] => ([], [])
  | c :: cs =>
    match digit c with
    | some d => ((d :: (spanDigits digit cs).1), (spanDigits digit cs).2)
    | none => ([], c :: cs)

/-- The natural number written by a digit list in the given base. -/
def digitsValue (base : Nat) (ds : List Nat) : Nat :=
  ds.foldl (fun acc d => acc * base + d) 0

/-- A numeric string after parsing, before its value is taken. -/
inductive NumLit where
  | infinity (neg : Bool)
  | decimal (neg : Bool) (mant : Nat) (exp : Int)
  | integer (n : Nat)
  deriving DecidableEq

/-- The rest of a decimal literal after its mantissa: nothing, or an exponent
part `e`/`E`, an optional sign and at least one digit, up to the end. -/
def parseExponent : List Char → Option Int
  | [] => some 0
  | c :: cs =>
    if c = 'e' ∨ c = 'E' then
      match cs with
      | '+' :: t =>
        match spanDigits decDigit t with
        | (d :: ds, []) => some (Int.ofNat (digitsValue 10 (d :: ds)))
        | _ => none
      | '-' :: t =>
        match spanDigits decDigit t with
        | (d :: ds, []) => some (- Int.ofNat (digitsValue 10 (d :: ds)))
        | _ => none
      | t =>
        match spanDigits decDigit t with
        | (d :: ds, []) => some (Int.ofNat (digitsValue 10 (d :: ds)))
        | _ => none
    else none

/-- An unsigned decimal literal other than `Infinity`: digits, an optional
fraction, an optional exponent, with a digit on at least one side of the
point.  The result is the pair `(m, e)` standing for `m * 10 ^ e`. -/
def parseUnsignedDecimal (cs : List Char) : Option (Nat × Int) :=
  let ip := (spanDigits decDigit cs).1
  let r1 := (spanDigits decDigit cs).2
  match r1 with
  | '.' :: t =>
    let fp := (spanDigits decDigit t).1
    let r2 := (spanDigits decDigit t).2
    if ip = [] ∧ fp = [] then none
    else (parseExponent r2).map
      (fun e => (digitsValue 10 (ip ++ fp), e - Int.ofNat fp.length))
  | _ =>
    if ip = [] then none
    else (parseExponent r1).map (fun e => (digitsValue 10 ip, e))

/-- An optionally signed decimal literal, `Infinity` included. -/
def parseSignedDecimal (neg : Bool) (cs : List Char) : Option NumLit :=
  if cs = "Infinity".data then some (.infinity neg)
  else (parseUnsignedDecimal cs).map (fun me => .decimal neg me.1 me.2)

/-- A run of digits of the given base reaching the end of the input. -/
def parseRadix (digit : Char → Option Nat) (base : Nat) (cs : List Char) : Option NumLit :=
  match spanDigits digit cs with
  | (d :: ds, []) => some (.integer (digitsValue base (d :: ds)))
  | _ => none

/-- The grammar `StringNumericLiteral` on a string whose surrounding white
space has been removed: empty, a `0x`/`0o`/`0b` integer, or a signed decimal. -/
def parseNumericLiteral (cs : List Char) : Option NumLit :=
  match cs with
  | [] => some (.integer 0)
  | '0' :: 'x' :: t => parseRadix hexDigit 16 t
  | '0' :: 'X' :: t => parseRadix hexDigit 16 t
  | '0' :: 'o' :: t => parseRadix octDigit 8 t
  | '0' :: 'O' :: t => parseRadix octDigit 8 t
  | '0' :: 'b' :: t => parseRadix binDigit 2 t
  | '0' :: 'B' :: t => parseRadix binDigit 2 t
  | '+' :: t => parseSignedDecimal false t
  | '-' :: t => parseSignedDecimal true t
  | t => parseSignedDecimal false t

/-- The integer nearest to a rational, a tie going to the even one. -/
def roundHalfEven (r : ℚ) : ℤ :=
  if r - ⌊r⌋ < 1 / 2 then ⌊r⌋
  else if 1 / 2 < r - ⌊r⌋ then ⌊r⌋ + 1
  else if ⌊r⌋ % 2 = 0 then ⌊r⌋ else ⌊r⌋ + 1

/-- The exponent of the doubles around a magnitude `q`: they are the integer
multiples of `2 ^ doubleExponent q`.  A double has 53 significant bits, so
from `2 ^ k` up to `2 ^ (k + 1)` the step is `2 ^ (k - 52)`; below
`2 ^ (-1022)` the step stays `2 ^ (-1074)`. -/
def doubleExponent (q : ℚ) : ℤ :=
  max (Int.log 2 q - 52) (-1074)

/-- The double nearest to a magnitude `q ≥ 0`, a tie going to the even
significand; a result that reaches `2 ^ 1024` is `+Infinity`. -/
def roundMagnitude (q : ℚ) : JsNum :=
  if (2 : ℚ) ^ (1024 : ℕ) ≤ (roundHalfEven (q / 2 ^ doubleExponent q) : ℚ) * 2 ^ doubleExponent q
  then .posInf
  else .fin ((roundHalfEven (q / 2 ^ doubleExponent q) : ℚ) * 2 ^ doubleExponent q)

/-- Negation of a number. -/
def JsNum.neg : JsNum → JsNum
  | .nan => .nan
  | .posInf => .negInf
  | .negInf => .posInf
  | .fin q => .fin (-q)

/-- The Number value for a mathematical value: the nearest double. -/
def JsNum.ofRat (q : ℚ) : JsNum :=
  if 0 ≤ q then roundMagnitude q else (roundMagnitude (-q)).neg

/-- The mathematical value `m * 10 ^ e`. -/
def scientific (m : Nat) (e : Int) : ℚ :=
  (m : ℚ) * (10 : ℚ) ^ e

/-- The number a parsed numeric string stands for. -/
def NumLit.toNum : NumLit → JsNum
  | .infinity false => .posInf
  | .infinity true => .negInf
  | .decimal false m e => JsNum.ofRat (scientific m e)
  | .decimal true m e => JsNum.ofRat (- scientific m e)
  | .integer n => JsNum.ofRat (n : ℚ)

/-- The abstract operation `StringToNumber`: `NaN` unless the trimmed string
is a numeric literal. -/
def stringToNumber (s : String) : JsNum :=
  match parseNumericLiteral (trimChars s.data) with
  | some l => l.toNum
  | none => .nan

mutual
/-- Whether converting the value to a primitive throws a `TypeError`.  A
parsed JSON object inherits `toString` and `valueOf` from `Object.prototype`
unless it has own properties of these names, which are never callable; the
conversion finds no usable method exactly when `toString` is shadowed. -/
def toPrimitiveThrows : JsVal → Bool
  | .arr xs => anyToPrimitiveThrows xs
  | .obj kvs => (lookupKey "toString" kvs).isSome
  | _ => false
/-- Whether converting some element of the list to a string throws. -/
def anyToPrimitiveThrows : List JsVal → Bool
  | [] => false
  | x :: xs => toPrimitiveThrows x || anyToPrimitiveThrows xs
end

mutual
/-- The number obtained from an array all of whose elements convert to strings:
`StringToNumber` of the elements joined with commas.  An empty array joins to
the empty string, a single element to its own string; two or more elements
join to a string that has a comma, which is no numeric literal. -/
def arrayToNumber : List JsVal → JsNum
  | [] => .fin 0
  | [x] => elementToNumber x
  | _ :: _ :: _ => .nan
/-- The value `StringToNumber(ToString(v))` for an array element `v`, where
`null` and `undefined` join as the empty string, a number converts to a
string that reads back as the same number, and an object to
`[object Object]`. -/
def elementToNumber : JsVal → JsNum
  | .undefined => .fin 0
  | .null => .fin 0
  | .bool _ => .nan
  | .num x => x
  | .str s => stringToNumber s
  | .arr xs => arrayToNumber xs
  | .obj _ => .nan
end

/-- The error thrown when an object has no usable conversion method. -/
def typeErrorToPrimitive : JsErr :=
  ⟨none, "TypeError: Cannot convert object to primitive value"⟩

/-- The builtin `Number(v)`. -/
def toNumber (v : JsVal) : Except JsErr JsNum :=
  if toPrimitiveThrows v then .error typeErrorToPrimitive
  else
    match v with
    | .undefined => .ok .nan
    | .null => .ok (.fin 0)
    | .bool true => .ok (.fin 1)
    | .bool false => .ok (.fin 0)
    | .num x => .ok x
    | .str s => .ok (stringToNumber s)
    | .arr xs => .ok (arrayToNumber xs)
    | .obj _ => .ok .nan

/-! ## The MySQL store

The schema is the one `getPool` creates: both tables have an
`INT AUTO_INCREMENT PRIMARY KEY` and `NOT NULL` columns, `users.email` is
`UNIQUE`.  Timestamps are the clock readings bound to `created_at`. -/

/-- A row of the `destinations` table. -/
structure DestRow where
  id : Nat
  name : String
  latitude : JsNum
  longitude : JsNum
  created_at : Nat
  deriving DecidableEq

/-- A row of the `users` table. -/
structure UserRow where
  id : Nat
  email : String
  password_hash : String
  created_at : Nat
  deriving DecidableEq

/-- A table: its rows in insertion order and its `AUTO_INCREMENT` counter. -/
structure Table (ρ : Type) where
  rows : List ρ
  nextId : Nat
  deriving DecidableEq

/-- A table as `CREATE TABLE` leaves it. -/
def Table.empty {ρ : Type} : Table ρ :=
  ⟨[], 1⟩

/-- State of the database server: whether the configured database exists, and
each table when it exists. -/
structure Server where
  hasDatabase : Bool
  destinations : Option (Table DestRow)
  users : Option (Table UserRow)
  deriving DecidableEq

/-- The calls a handler makes outside the process. -/
inductive Call where
  | createConnection
  | createDatabase
  | endConnection
  | createPool
  | createDestinationsTable
  | createUsersTable
  | insertUser
  | selectUserByEmail
  | selectDestinations
  | insertDestination
  | deleteDestination
  | bcryptHash
  | bcryptCompare
  deriving DecidableEq

/-- Everything a request can read or change.

* `pool` is the module-level variable `let pool`, `none` while it is
  `undefined`; a pool is named by the number of pools created before it.
* `now` is what `new Date()` reads.
* `salts` are the salts `bcrypt.hash` will draw.
* `faults` are outcomes imposed on the next asynchronous external calls, in
  order: `some e` makes the call reject with `e` without effect, `none` (or an
  exhausted list) lets it behave as the store model says.
* `log` records the external calls made, oldest first. -/
structure World where
  pool : Option Nat
  server : Server
  now : Nat
  salts : List Nat
  faults : List (Option JsErr)
  log : List Call
  deriving DecidableEq

/-! ## Asynchronous code -/

/-- An `async` computation run to completion: from the world before it to its
result (a value, or the error it rejects with) and the world after it. -/
def Js (α : Type) : Type :=
  World → Except JsErr α × World

/-- A computation that returns a value without touching the world. -/
def Js.ret {α : Type} (a : α) : Js α :=
  fun w => (.ok a, w)

/-- Sequencing: an error skips the rest, the world changes made so far stay. -/
def Js.andThen {α β : Type} (m : Js α) (f : α → Js β) : Js β :=
  fun w =>
    match m w with
    | (.ok a, w1) => f a w1
    | (.error e, w1) => (.error e, w1)

instance : Monad Js where
  pure := Js.ret
  bind := Js.andThen

/-- The statement `throw e`. -/
def Js.throw {α : Type} (e : JsErr) : Js α :=
  fun w => (.error e, w)

/-- The statement `try \{ body } catch (e) \{ handler }`. -/
def Js.tryCatch {α : Type} (body : Js α) (handler : JsErr → Js α) : Js α :=
  fun w =>
    match body w with
    | (.ok a, w1) => (.ok a, w1)
    | (.error e, w1) => handler e w1

/-- Lift a pure computation that may throw. -/
def Js.ofExcept {α : Type} : Except JsErr α → Js α
  | .ok a => Js.ret a
  | .error e => Js.throw e

/-- Run a statement against the database server. -/
def onServer {α : Type} (op : Server → Except JsErr α × Server) : Js α :=
  fun w => ((op w.server).1, { w with server := (op w.server).2 })

/-- An awaited external call: it is logged, then the next imposed outcome, if
any, decides whether it rejects; otherwise `op` takes effect. -/
def external {α : Type} (c : Call) (op : Js α) : Js α :=
  fun w =>
    match w.faults with
    | some e :: rest => (.error e, { w with log := w.log ++ [c], faults := rest })
    | none :: rest => op { w with log := w.log ++ [c], faults := rest }
    | [] => op { w with log := w.log ++ [c] }

/-- The expression `new Date()`. -/
def newDate : Js Nat :=
  fun w => (.ok w.now, w)

/-! ## Store operations -/

/-- The apostrophe the server puts around names in its messages. -/
def sqlQuote : String := "'"

/-- The driver error for a statement against a database that does not exist. -/
def unknownDatabase : JsErr :=
  ⟨some "ER_BAD_DB_ERROR", "Error: Unknown database " ++ sqlQuote ++ "wakemeup" ++ sqlQuote⟩

/-- The driver error for a statement against a table that does not exist. -/
def noSuchTable (t : String) : JsErr :=
  ⟨some "ER_NO_SUCH_TABLE",
    "Error: Table " ++ sqlQuote ++ "wakemeup." ++ t ++ sqlQuote ++ " doesn" ++ sqlQuote ++ "t exist"⟩

/-- The driver error for an insert that violates `UNIQUE` on `users.email`. -/
def duplicateEmail (email : String) : JsErr :=
  ⟨some "ER_DUP_ENTRY",
    "Error: Duplicate entry " ++ sqlQuote ++ email ++ sqlQuote ++ " for key " ++
      sqlQuote ++ "users.email" ++ sqlQuote⟩

/-- Statement `CREATE DATABASE IF NOT EXISTS` on the bootstrap connection. -/
def Server.createDatabase (s : Server) : Except JsErr Unit × Server :=
  (.ok (), { s with hasDatabase := true })

/-- Statement `CREATE TABLE IF NOT EXISTS destinations (...)`. -/
def Server.createDestinationsTable (s : Server) : Except JsErr Unit × Server :=
  if s.hasDatabase then
    match s.destinations with
    | some _ => (.ok (), s)
    | none => (.ok (), { s with destinations := some Table.empty })
  else (.error unknownDatabase, s)

/-- Statement `CREATE TABLE IF NOT EXISTS users (...)`. -/
def Server.createUsersTable (s : Server) : Except JsErr Unit × Server :=
  if s.hasDatabase then
    match s.users with
    | some _ => (.ok (), s)
    | none => (.ok (), { s with users := some Table.empty })
  else (.error unknownDatabase, s)

/-- Statement `INSERT INTO users (email, password_hash, created_at) VALUES (?, ?, ?)`:
rejected when a row already has the email, else the row is appended with the
next id. -/
def Server.insertUser (email hash : String) (createdAt : Nat) (s : Server) :
    Except JsErr Unit × Server :=
  match s.users with
  | none => (.error (noSuchTable "users"), s)
  | some t =>
    if t.rows.any (fun r => r.email == email) then (.error (duplicateEmail email), s)
    else
      (.ok (), { s with users := some ⟨t.rows ++ [⟨t.nextId, email, hash, createdAt⟩], t.nextId + 1⟩ })

/-- Statement `SELECT * FROM users WHERE email = ?`. -/
def Server.selectUserByEmail (email : String) (s : Server) :
    Except JsErr (List UserRow) × Server :=
  match s.users with
  | none => (.error (noSuchTable "users"), s)
  | some t => (.ok (t.rows.filter (fun r => r.email == email)), s)

/-- Statement `INSERT INTO destinations (name, latitude, longitude, created_at)
VALUES (?, ?, ?, ?)`; the result is `insertId`. -/
def Server.insertDestination (name : String) (lat lng : JsNum) (createdAt : Nat) (s : Server) :
    Except JsErr Nat × Server :=
  match s.destinations with
  | none => (.error (noSuchTable "destinations"), s)
  | some t =>
    (.ok t.nextId,
      { s with destinations := some ⟨t.rows ++ [⟨t.nextId, name, lat, lng, createdAt⟩], t.nextId + 1⟩ })

/-- Whether a bound number equals an integer key. -/
def JsNum.eqNat (x : JsNum) (n : Nat) : Bool :=
  match x with
  | .fin q => decide (q = (n : ℚ))
  | _ => false

/-- Statement `DELETE FROM destinations WHERE id=?`. -/
def Server.deleteDestination (id : JsNum) (s : Server) : Except JsErr Unit × Server :=
  match s.destinations with
  | none => (.error (noSuchTable "destinations"), s)
  | some t =>
    (.ok (), { s with destinations := some ⟨t.rows.filter (fun r => !(id.eqNat r.id)), t.nextId⟩ })

/-- Statement `SELECT * FROM destinations ORDER BY created_at DESC`.  SQL fixes
the order of the result only up to rows with equal `created_at`; `order` is
the order the server produces on the rows of the table. -/
def Server.selectDestinations (order : List DestRow → List DestRow) (s : Server) :
    Except JsErr (List DestRow) × Server :=
  match s.destinations with
  | none => (.error (noSuchTable "destinations"), s)
  | some t => (.ok (order t.rows), s)

/-- What `ORDER BY created_at DESC` demands of the server: the result holds
the rows of the table, each as often as the table does, latest first. -/
def ValidOrder (order : List DestRow → List DestRow) : Prop :=
  ∀ rows, (order rows).Perm rows ∧
    (order rows).Pairwise (fun a b => b.created_at ≤ a.created_at)

/-- Insert a row before the first row that is strictly older. -/
def insertDesc (r : DestRow) : List DestRow → List DestRow
  | [] => [r]
  | x :: xs => if x.created_at < r.created_at then r :: x :: xs else x :: insertDesc r xs

/-- A server order: a stable sort, rows with equal timestamps stay in table
order. -/
def stableDesc (rows : List DestRow) : List DestRow :=
  rows.foldl (fun acc r => insertDesc r acc) []

/-! ## Libraries

The hashing and token primitives and the server's choice of order among rows
with equal timestamps are parameters of the model. -/

/-- The claims a token carries: the object passed to `jwt.sign`. -/
structure Payload where
  userId : Nat
  email : String
  deriving DecidableEq

/-- The library functions the handlers call.

* `hash salt password` is the result of `bcrypt.hash(password, 10)` when
  `salt` is drawn.
* `compare password hash` is the result of `bcrypt.compare`.
* `sign payload now` is `jwt.sign(payload, JWT_SECRET, \{ expiresIn: '7d' })`
  at time `now`.
* `verify token now` is the payload `jwt.verify(token, JWT_SECRET)` returns at
  time `now`, or `none` when it throws.
* `order` is the server's `ORDER BY created_at DESC`.
* `coerceVarchar` is the text the driver and the server make of a bound
  parameter that is not a string when it meets a `VARCHAR` column. -/
structure Env where
  hash : Nat → String → String
  compare : String → String → Bool
  sign : Payload → Nat → String
  verify : String → Nat → Option Payload
  order : List DestRow → List DestRow
  coerceVarchar : JsVal → String

/-- The text bound to a `VARCHAR` column or compared with one. -/
def Env.bindVarchar (env : Env) : JsVal → String
  | .str s => s
  | v => env.coerceVarchar v

/-- The operator `typeof`. -/
def typeOf : JsVal → String
  | .undefined => "undefined"
  | .null => "object"
  | .bool _ => "boolean"
  | .num _ => "number"
  | .str _ => "string"
  | .arr _ => "object"
  | .obj _ => "object"

/-- The call `bcrypt.hash(password, 10)`: rejects unless the password is a
string, else hashes it with the next salt. -/
def bcryptHash (env : Env) (password : JsVal) : Js String :=
  external .bcryptHash (fun w =>
    match password with
    | .str s => (.ok (env.hash (w.salts.head?.getD 0) s), { w with salts := w.salts.tail })
    | v => (.error ⟨none, "Error: Illegal arguments: " ++ typeOf v ++ ", number"⟩, w))

/-- The call `bcrypt.compare(password, hash)`: rejects unless the password is
a string. -/
def bcryptCompare (env : Env) (password : JsVal) (hash : String) : Js Bool :=
  external .bcryptCompare (fun w =>
    match password with
    | .str s => (.ok (env.compare s hash), w)
    | v => (.error ⟨none, "Error: Illegal arguments: " ++ typeOf v ++ ", string"⟩, w))

/-! ## `getPool` -/

/-- The call `mysql.createConnection(...)`. -/
def mysqlCreateConnection : Js Unit :=
  external .createConnection (Js.ret ())

/-- The call `bootstrap.query(...)` that creates the database. -/
def bootstrapQuery : Js Unit :=
  external .createDatabase (onServer Server.createDatabase)

/-- The call `bootstrap.end()`. -/
def bootstrapEnd : Js Unit :=
  external .endConnection (Js.ret ())

/-- The synchronous call `mysql.createPool(...)`: it opens no connection and
returns a new pool, named by the number of pools created before it. -/
def mysqlCreatePool : Js Nat :=
  fun w => (.ok (w.log.count .createPool), { w with log := w.log ++ [.createPool] })

/-- Read the module-level variable `pool`. -/
def readPool : Js (Option Nat) :=
  fun w => (.ok w.pool, w)

/-- Assign the module-level variable `pool`. -/
def writePool (p : Nat) : Js Unit :=
  fun w => (.ok (), { w with pool := some p })

/-- The first `pool.query(...)` of `getPool`. -/
def poolQueryDestinations : Js Unit :=
  external .createDestinationsTable (onServer Server.createDestinationsTable)

/-- The second `pool.query(...)` of `getPool`. -/
def poolQueryUsers : Js Unit :=
  external .createUsersTable (onServer Server.createUsersTable)

/-- The function `getPool` with no other code running at its `await`s. -/
def getPool : Js (Option Nat) := do
  if (← readPool).isNone then
    let _bootstrap ← mysqlCreateConnection
    bootstrapQuery
    bootstrapEnd
    writePool (← mysqlCreatePool)
    poolQueryDestinations
    poolQueryUsers
  readPool

/-! ## Requests and responses -/

/-- What a handler sends: the status and the value given to `res.json`. -/
structure Response where
  status : Nat
  body : JsVal

/-- The parts of `req` the handlers read: the `Authorization` header, the
parsed body (`undefined` when there is none), the path parameter `id`, and
`req.user` once the auth gate has set it. -/
structure Request where
  authorization : Option String
  body : JsVal
  id : String
  user : Option Payload

/-- The body `\{ error: msg }`. -/
def errorBody (msg : String) : JsVal :=
  .obj [("error", .str msg)]

/-- The body `\{ ok: true }`. -/
def okBody : JsVal :=
  .obj [("ok", .bool true)]

/-- The expression `req.body || \{}`. -/
def bodyOrEmpty (req : Request) : JsVal :=
  if req.body.truthy then req.body else .obj []

/-- The fallback of every `catch`: status 500 with `String(e)`. -/
def internalError (e : JsErr) : Js Response :=
  pure ⟨500, errorBody e.str⟩

/-! ## Auth gate -/

/-- The function `authMiddleware`; `next` is the rest of the route.  The
handlers behind it are `async`, so nothing `next()` does is caught by the
`try` around `jwt.verify`. -/
def authMiddleware (env : Env) (req : Request) (next : Request → Js Response) : Js Response :=
  let authHeader := req.authorization.getD ""
  let token := if jsStartsWith authHeader "Bearer " then some (jsSlice authHeader 7) else none
  match token with
  | none => pure ⟨401, errorBody "Missing token"⟩
  | some t =>
    if t = "" then pure ⟨401, errorBody "Missing token"⟩
    else do
      match env.verify t (← newDate) with
      | some payload => next { req with user := some payload }
      | none => pure ⟨401, errorBody "Invalid token"⟩

/-! ## Auth routes -/

/-- The `try` block of `POST /api/auth/signup`. -/
def signupTry (env : Env) (email password : JsVal) : Js Response := do
  let _p ← getPool
  let passwordHash ← bcryptHash env password
  let createdAt ← newDate
  external .insertUser (onServer (Server.insertUser (env.bindVarchar email) passwordHash createdAt))
  pure ⟨201, okBody⟩

/-- The `catch` block of `POST /api/auth/signup`. -/
def signupCatch (e : JsErr) : Js Response :=
  if jsIncludes e.str "Duplicate" then pure ⟨409, errorBody "Email already in use"⟩
  else pure ⟨500, errorBody e.str⟩

/-- The handler of `POST /api/auth/signup`. -/
def signup (env : Env) (req : Request) : Js Response :=
  let email := (bodyOrEmpty req).get "email"
  let password := (bodyOrEmpty req).get "password"
  if !email.truthy || !password.truthy then
    pure ⟨400, errorBody "Email and password required"⟩
  else Js.tryCatch (signupTry env email password) signupCatch

/-- The `try` block of `POST /api/auth/login`. -/
def loginTry (env : Env) (email password : JsVal) : Js Response := do
  let _p ← getPool
  let rows ← external .selectUserByEmail (onServer (Server.selectUserByEmail (env.bindVarchar email)))
  match rows.head? with
  | none => pure ⟨401, errorBody "Invalid credentials"⟩
  | some user =>
    let ok ← bcryptCompare env password user.password_hash
    if !ok then pure ⟨401, errorBody "Invalid credentials"⟩
    else
      let token := env.sign ⟨user.id, user.email⟩ (← newDate)
      pure ⟨200, .obj [("token", .str token)]⟩

/-- The handler of `POST /api/auth/login`. -/
def login (env : Env) (req : Request) : Js Response :=
  let email := (bodyOrEmpty req).get "email"
  let password := (bodyOrEmpty req).get "password"
  if !email.truthy || !password.truthy then
    pure ⟨400, errorBody "Email and password required"⟩
  else Js.tryCatch (loginTry env email password) internalError

/-! ## Destination routes -/

/-- A destination row as `res.json` receives it; the timestamp stands for the
date it denotes. -/
def DestRow.toJson (r : DestRow) : JsVal :=
  .obj [("id", .num (.fin r.id)), ("name", .str r.name), ("latitude", .num r.latitude),
    ("longitude", .num r.longitude), ("created_at", .num (.fin r.created_at))]

/-- The handler of `GET /api/destinations`. -/
def listDestinations (env : Env) (_req : Request) : Js Response :=
  Js.tryCatch (do
    let _p ← getPool
    let rows ← external .selectDestinations (onServer (Server.selectDestinations env.order))
    pure ⟨200, .arr (rows.map DestRow.toJson)⟩) internalError

/-- The expression `typeof name === 'string' && name.trim().length > 0`. -/
def nameValid : JsVal → Bool
  | .str s => decide (0 < (jsTrim s).length)
  | _ => false

/-- The 400 response of `POST /api/destinations`. -/
def invalidPayload (name latitude longitude : JsVal) : Response :=
  ⟨400, .obj [("error", .str "Invalid payload"),
    ("details", .obj [("nameValid", .bool (nameValid name)),
      ("latitudeReceived", latitude), ("longitudeReceived", longitude)])]⟩

/-- The `try` block of `POST /api/destinations`, for a name that is a string. -/
def createTry (name : String) (lat lng : JsNum) : Js Response := do
  let _p ← getPool
  let createdAt ← newDate
  let insertId ← external .insertDestination
    (onServer (Server.insertDestination (jsTrim name) lat lng createdAt))
  pure ⟨201, .obj [("id", .num (.fin insertId))]⟩

/-- The handler of `POST /api/destinations`.  The two `Number(...)` calls stand
outside the `try`: when one throws, the handler rejects without a response. -/
def createDestination (_env : Env) (req : Request) : Js Response := do
  let name := (bodyOrEmpty req).get "name"
  let latitude := (bodyOrEmpty req).get "latitude"
  let longitude := (bodyOrEmpty req).get "longitude"
  let lat ← Js.ofExcept (toNumber latitude)
  let lng ← Js.ofExcept (toNumber longitude)
  match name with
  | .str s =>
    if (jsTrim s).length = 0 || !lat.isFinite || !lng.isFinite then
      pure (invalidPayload name latitude longitude)
    else Js.tryCatch (createTry s lat lng) internalError
  | _ => pure (invalidPayload name latitude longitude)

/-- The handler of `DELETE /api/destinations/:id`; a path parameter is a
string. -/
def deleteDestination (_env : Env) (req : Request) : Js Response :=
  let id := stringToNumber req.id
  if !id.truthy then pure ⟨400, errorBody "Invalid id"⟩
  else Js.tryCatch (do
    let _p ← getPool
    external .deleteDestination (onServer (Server.deleteDestination id))
    pure ⟨200, okBody⟩) internalError

/-- The three routes under `/api/destinations`. -/
inductive DestRoute where
  | list
  | create
  | delete
  deriving DecidableEq

/-- The route handler registered for a route. -/
def DestRoute.handler (env : Env) : DestRoute → Request → Js Response
  | .list => listDestinations env
  | .create => createDestination env
  | .delete => deleteDestination env

/-- A request under `/api/destinations`: the gate installed by
`app.use('/api/destinations', authMiddleware)` runs first and hands over to the
route handler through `next`. -/
def destinationsApi (env : Env) (route : DestRoute) (req : Request) : Js Response :=
  authMiddleware env req (route.handler env)

/-! ## `getPool` at its `await` points

The event loop runs one caller at a time up to its next `await`.  A caller of
`getPool` is at one of the points below; `getPoolStep` resumes it once.  An
awaited call takes effect when the caller is resumed from it. -/

/-- Where a caller of `getPool` stands. -/
inductive Pc where
  | entry
  | awaitConnection
  | awaitCreateDatabase
  | awaitEnd
  | awaitDestinations
  | awaitUsers
  | returned (p : Option Nat)
  | rejected (e : JsErr)
  deriving DecidableEq

/-- Resume from an awaited call: on success go on to `next`, else reject. -/
def resumeWith (m : Js Unit) (next : Pc) (w : World) : Pc × World :=
  match m w with
  | (.ok _, w1) => (next, w1)
  | (.error e, w1) => (.rejected e, w1)

/-- Run one caller of `getPool` up to its next `await`.

* `entry`: the test `if (!pool)`; with a pool the function returns it, else it
  calls `mysql.createConnection` and waits.
* `awaitEnd`: after `bootstrap.end()` the pool is created and assigned, and
  the first `pool.query` is awaited.
* `awaitUsers`: after the second `pool.query` the statement `return pool`
  reads the variable. -/
def getPoolStep (pc : Pc) (w : World) : Pc × World :=
  match pc with
  | .entry => if w.pool.isNone then (.awaitConnection, w) else (.returned w.pool, w)
  | .awaitConnection => resumeWith mysqlCreateConnection .awaitCreateDatabase w
  | .awaitCreateDatabase => resumeWith bootstrapQuery .awaitEnd w
  | .awaitEnd => resumeWith (do bootstrapEnd; writePool (← mysqlCreatePool)) .awaitDestinations w
  | .awaitDestinations => resumeWith poolQueryDestinations .awaitUsers w
  | .awaitUsers =>
    match poolQueryUsers w with
    | (.ok _, w1) => (.returned w1.pool, w1)
    | (.error e, w1) => (.rejected e, w1)
  | .returned p => (.returned p, w)
  | .rejected e => (.rejected e, w)

/-- Resume the caller with the given index. -/
def resumeCaller (i : Nat) (st : List Pc × World) : List Pc × World :=
  match st.1.get? i with
  | some pc => (st.1.set i (getPoolStep pc st.2).1, (getPoolStep pc st.2).2)
  | none => st

/-- Run the callers in the order a schedule names them. -/
def runSchedule (schedule : List Nat) (st : List Pc × World) : List Pc × World :=
  schedule.foldl (fun acc i => resumeCaller i acc) st

/-- A process that has just started against a server without the database. -/
def freshWorld : World :=
  ⟨none, ⟨false, none, none⟩, 0, [], [], []⟩

/-! ## A concrete environment -/

/-- Toy instances of the library functions, used to evaluate the handlers on
concrete requests. -/
def demoEnv : Env where
  hash := fun _ password => "$2a$10$" ++ password
  compare := fun password hash => hash == "$2a$10$" ++ password
  sign := fun payload _ => "token-for-" ++ payload.email
  verify := fun token _ => if token = "good" then some ⟨1, "ann@example.org"⟩ else none
  order := stableDesc
  coerceVarchar := fun _ => ""

/-- A server after a successful start, with empty tables. -/
def readyWorld : World :=
  ⟨some 0, ⟨true, some Table.empty, some Table.empty⟩, 1000, [],  [],
    [.createConnection, .createDatabase, .endConnection, .createPool,
      .createDestinationsTable, .createUsersTable]⟩

/-- The pool is initialised and both tables exist: the state `getPool` leaves
behind when it succeeds. -/
def Ready (w : World) : Prop :=
  w.pool.isSome = true ∧ w.server.destinations.isSome = true ∧ w.server.users.isSome = true

/-- The rows of the `destinations` table, none while the table is missing. -/
def World.destinationRows (w : World) : List DestRow :=
  match w.server.destinations with
  | some t => t.rows
  | none => []

/-- The rows of the `users` table, none while the table is missing. -/
def World.userRows (w : World) : List UserRow :=
  match w.server.users with
  | some t => t.rows
  | none => []

/-- A ready server holding one destination and one user. -/
def demoWorld : World :=
  { readyWorld with
    server := ⟨true, some ⟨[⟨1, "Home", .fin 1, .fin 2, 900⟩], 2⟩,
      some ⟨[⟨1, "ann@example.org", "$2a$10$secret", 800⟩], 2⟩⟩ }

/-- A create request without headers: only the body matters to the handler. -/
def createRequest (name latitude longitude : JsVal) : Request :=
  ⟨none, .obj [("name", name), ("latitude", latitude), ("longitude", longitude)], "", none⟩

/-- The request of the specification: `"  Paris  "` at 48.8566, 2.3522. -/
def parisRequest : Request :=
  createRequest (.str "  Paris  ") (.num (.fin 48.8566)) (.num (.fin 2.3522))

/-- A create request whose latitude is the string `"not-a-number"`. -/
def badLatitudeRequest : Request :=
  createRequest (.str "Paris") (.str "not-a-number") (.num (.fin 2.3522))

/-- A create request whose latitude is the string `"not-a-number"` and whose
longitude is an object with an own property `toString`. -/
def throwingLongitudeRequest : Request :=
  createRequest (.str "Paris") (.str "not-a-number") (.obj [("toString", .num (.fin 1))])

/-- A delete request for the path parameter `id`. -/
def deleteRequest (id : String) : Request :=
  ⟨none, .undefined, id, none⟩

/-- A signup or login request without headers. -/
def authRequest (email password : JsVal) : Request :=
  ⟨none, .obj [("email", email), ("password", password)], "", none⟩

/-- The driver error for an insert that collides on the primary key, as the
server reports once the `AUTO_INCREMENT` counter of `users` is exhausted. -/
def duplicatePrimaryKey : JsErr :=
  ⟨some "ER_DUP_ENTRY",
    "Error: Duplicate entry " ++ sqlQuote ++ "2147483647" ++ sqlQuote ++ " for key " ++
      sqlQuote ++ "users.PRIMARY" ++ sqlQuote⟩

/-- The demo server when the insert of the next signup will be rejected with a
primary-key collision (the hashing call before it is left alone). -/
def exhaustedWorld : World :=
  { demoWorld with faults := [none, some duplicatePrimaryKey] }

/-- A list request without headers. -/
def listRequest : Request :=
  ⟨none, .undefined, "", none⟩

/-- The demo server at the very time its one destination was created. -/
def tieWorld : World :=
  { demoWorld with now := 900 }

/-- Run a lone caller of `getPool` through `n` resumptions. -/
def runAlone : Nat → Pc × World → Pc × World
  | 0, st => st
  | n + 1, st => runAlone n (getPoolStep st.1 st.2)

/-- The result a caller has received, if it has one. -/
def Pc.outcome : Pc → Option (Except JsErr (Option Nat))
  | .returned p => some (.ok p)
  | .rejected e => some (.error e)
  | _ => none

/-! ## Basic facts -/

theorem Js.run_bind {α β : Type} (m : Js α) (f : α → Js β) (w : World) :
    (m >>= f) w = match m w with
      | (.ok a, w1) => f a w1
      | (.error e, w1) => (.error e, w1) := rfl

theorem Js.run_pure {α : Type} (a : α) (w : World) : (pure a : Js α) w = (.ok a, w) := rfl

/-- On a ready world `getPool` returns the pool at once. -/
theorem getPool_ready (w : World) (h : Ready w) : getPool w = (.ok w.pool, w) := by
  obtain ⟨hp, -, -⟩ := h
  cases hpool : w.pool with
  | none => simp [hpool] at hp
  | some p =>
    simp [getPool, Js.run_bind, readPool, hpool, Js.run_pure]

/-- Startup on a fresh process: `getPool` returns pool 0 and leaves the ready
world. -/
theorem getPool_fresh_world :
    getPool freshWorld = (.ok (some 0), { readyWorld with now := 0 }) := by
  rfl

theorem external_no_fault {α : Type} (c : Call) (op : Js α) (w : World) (h : w.faults = []) :
    external c op w = op { w with log := w.log ++ [c] } := by
  simp [external, h]

theorem Js.run_tryCatch_ok {α : Type} (body : Js α) (handler : JsErr → Js α) (w w1 : World)
    (a : α) (h : body w = (.ok a, w1)) : Js.tryCatch body handler w = (.ok a, w1) := by
  simp [Js.tryCatch, h]

theorem Js.run_tryCatch_error {α : Type} (body : Js α) (handler : JsErr → Js α) (w w1 : World)
    (e : JsErr) (h : body w = (.error e, w1)) : Js.tryCatch body handler w = handler e w1 := by
  simp [Js.tryCatch, h]

/-- C1. A request under `/api/destinations` (list, create or delete) whose
`Authorization` header is absent, does not start with `Bearer `, or is
`Bearer ` followed by nothing is answered 401 by the auth gate, whatever the
downstream handler is, and the world is left as it was: the call log, the
pool variable and the store are untouched, so no `getPool` and no query ran. -/
theorem auth_gate_rejects_before_store (env : Env) (route : DestRoute) (req : Request)
    (w : World)
    (h : req.authorization = none ∨
      (∃ s, req.authorization = some s ∧ jsStartsWith s "Bearer " = false) ∨
      req.authorization = some "Bearer ") :
    (∀ next, authMiddleware env req next w = (.ok ⟨401, errorBody "Missing token"⟩, w)) ∧
    destinationsApi env route req w = (.ok ⟨401, errorBody "Missing token"⟩, w) ∧
    (destinationsApi env route req w).2.log = w.log := by
  have key : ∀ next, authMiddleware env req next w = (.ok ⟨401, errorBody "Missing token"⟩, w) := by
    intro next
    rcases h with h | ⟨s, hs, hp⟩ | h
    · have h0 : jsStartsWith "" "Bearer " = false := by decide
      simp [authMiddleware, h, h0, Js.run_pure]
    · simp [authMiddleware, hs, hp, Js.run_pure]
    · have h1 : jsStartsWith "Bearer " "Bearer " = true := by decide
      have h2 : jsSlice "Bearer " 7 = "" := by decide
      simp [authMiddleware, h, h1, h2, Js.run_pure]
  refine ⟨key, ?_, ?_⟩
  · exact key _
  · rw [destinationsApi, key]

theorem auth_gate_rejects_before_store_witness :
    (∀ next, authMiddleware demoEnv ⟨some "Basic abc", .undefined, "7", none⟩ next readyWorld
      = (.ok ⟨401, errorBody "Missing token"⟩, readyWorld)) ∧
    destinationsApi demoEnv .delete ⟨some "Basic abc", .undefined, "7", none⟩ readyWorld
      = (.ok ⟨401, errorBody "Missing token"⟩, readyWorld) ∧
    (destinationsApi demoEnv .delete ⟨some "Basic abc", .undefined, "7", none⟩ readyWorld).2.log
      = readyWorld.log :=
  auth_gate_rejects_before_store demoEnv .delete ⟨some "Basic abc", .undefined, "7", none⟩
    readyWorld (Or.inr (Or.inl ⟨"Basic abc", rfl, by decide⟩))

/-- A request under `/api/destinations` whose header is `Bearer ` followed by a
token that verifies reaches the route handler, with `req.user` set to the
payload. -/
theorem destinationsApi_authenticated (env : Env) (route : DestRoute) (req : Request)
    (w : World) (t : String) (payload : Payload)
    (hh : req.authorization = some ("Bearer " ++ t)) (ht : t ≠ "")
    (hv : env.verify t w.now = some payload) :
    destinationsApi env route req w = route.handler env { req with user := some payload } w := by
  have h1 : jsStartsWith ("Bearer " ++ t) "Bearer " = true := by
    simp [jsStartsWith, String.data_append]
  have h2 : jsSlice ("Bearer " ++ t) 7 = t := by
    have hd : ("Bearer " ++ t).data = "Bearer ".data ++ t.data := String.data_append _ _
    have hl : "Bearer ".data.length = 7 := by decide
    simp only [jsSlice, hd, ← hl, List.drop_left]
  simp [destinationsApi, authMiddleware, hh, h1, h2, ht, Js.run_bind, newDate, hv]

/-- What `DELETE /api/destinations/:id` does on a ready world without faults
when the id is a non-zero number. -/
theorem deleteDestination_run (env : Env) (req : Request) (w : World) (t : Table DestRow)
    (hr : Ready w) (hf : w.faults = []) (ht : w.server.destinations = some t)
    (hid : (stringToNumber req.id).truthy = true) :
    deleteDestination env req w =
      (.ok ⟨200, okBody⟩,
        { w with
          log := w.log ++ [.deleteDestination]
          server := { w.server with
            destinations :=
              some ⟨t.rows.filter (fun r => !((stringToNumber req.id).eqNat r.id)), t.nextId⟩ } }) := by
  simp [deleteDestination, hid, Js.tryCatch, Js.run_bind, getPool_ready w hr,
    external_no_fault _ _ w hf, onServer, Server.deleteDestination, ht, Js.run_pure]

/-- C5. On a ready world without faults, for a path parameter that converts to
a non-zero number: if no destination row has that id, `DELETE` answers 200
`ok: true` and leaves the server state, hence the table, as it was; and for
every such id, matching or not, deleting a second time gives the response and
the table of the first deletion. -/
theorem delete_missing_id_unchanged_and_idempotent (env : Env) (req : Request) (w : World)
    (hr : Ready w) (hf : w.faults = [])
    (hid : (stringToNumber req.id).truthy = true) :
    ((∀ r ∈ w.destinationRows, (stringToNumber req.id).eqNat r.id = false) →
      (deleteDestination env req w).1 = .ok ⟨200, okBody⟩ ∧
      (deleteDestination env req w).2.server = w.server) ∧
    (deleteDestination env req (deleteDestination env req w).2).1
      = (deleteDestination env req w).1 ∧
    (deleteDestination env req (deleteDestination env req w).2).2.server
      = (deleteDestination env req w).2.server := by
  obtain ⟨t, ht⟩ := Option.isSome_iff_exists.mp hr.2.1
  have h1 := deleteDestination_run env req w t hr hf ht hid
  have hr1 : Ready (deleteDestination env req w).2 := by
    rw [h1]; exact ⟨hr.1, rfl, hr.2.2⟩
  have h2 := deleteDestination_run env req (deleteDestination env req w).2
    ⟨t.rows.filter (fun r => !((stringToNumber req.id).eqNat r.id)), t.nextId⟩ hr1
    (by rw [h1]; exact hf) (by rw [h1]) hid
  refine ⟨?_, ?_, ?_⟩
  · intro hno
    rw [h1]
    refine ⟨rfl, ?_⟩
    have hrows : t.rows.filter (fun r => !((stringToNumber req.id).eqNat r.id)) = t.rows := by
      apply List.filter_eq_self.mpr
      intro r hr'
      have := hno r (by simpa [World.destinationRows, ht] using hr')
      simp [this]
    simp only [hrows]
    cases hs : w.server with
    | mk hd ds us =>
      rw [hs] at ht
      simp only at ht
      subst ht
      rfl
  · rw [h2, h1]
  · rw [h2]
    simp only [List.filter_filter, Bool.and_self]
    rw [h1]

theorem doubleExponent_of_bounds (q : ℚ) (k : ℤ) (hq : 0 < q) (h1 : (2 : ℚ) ^ k ≤ q)
    (h2 : q < (2 : ℚ) ^ (k + 1)) : doubleExponent q = max (k - 52) (-1074) := by
  have hb : 1 < 2 := by norm_num
  have ha : k ≤ Int.log 2 q := (Int.zpow_le_iff_le_log hb hq).mp (by exact_mod_cast h1)
  have hc : Int.log 2 q < k + 1 := (Int.lt_zpow_iff_log_lt hb hq).mp (by exact_mod_cast h2)
  have : Int.log 2 q = k := by omega
  rw [doubleExponent, this]

theorem doubleExponent_of_tiny (q : ℚ) (hq : 0 < q) (h2 : q < (2 : ℚ) ^ (-1021 : ℤ)) :
    doubleExponent q = -1074 := by
  have hb : 1 < 2 := by norm_num
  have hc : Int.log 2 q < -1021 := (Int.lt_zpow_iff_log_lt hb hq).mp (by exact_mod_cast h2)
  rw [doubleExponent]
  omega

theorem roundHalfEven_of_lt_half (r : ℚ) (f : ℤ) (h1 : (f : ℚ) ≤ r) (h2 : r < f + 1 / 2) :
    roundHalfEven r = f := by
  have hf : ⌊r⌋ = f := by
    rw [Int.floor_eq_iff]
    constructor
    · exact h1
    · linarith
  simp only [roundHalfEven, hf]
  rw [if_pos (by linarith)]

theorem roundMagnitude_zero : roundMagnitude 0 = .fin 0 := by
  simp [roundMagnitude, roundHalfEven]

theorem roundMagnitude_seven : roundMagnitude 7 = .fin 7 := by
  have he : doubleExponent 7 = -50 := by
    rw [doubleExponent_of_bounds 7 2 (by norm_num) (by norm_num) (by norm_num)]
    rfl
  have hr : roundHalfEven (7 / 2 ^ (-50 : ℤ)) = 7 * 2 ^ 50 := by
    apply roundHalfEven_of_lt_half <;> norm_num
  simp only [roundMagnitude, he, hr]
  norm_num

theorem stringToNumber_seven : stringToNumber "7" = .fin 7 := by
  have hp : parseNumericLiteral (trimChars "7".data) = some (.decimal false 7 0) := by decide
  have hv : scientific 7 0 = 7 := by norm_num [scientific]
  simp only [stringToNumber, hp, NumLit.toNum, hv, JsNum.ofRat]
  rw [if_pos (by norm_num), roundMagnitude_seven]

theorem roundHalfEven_of_gt_half (r : ℚ) (f : ℤ) (h1 : (f : ℚ) + 1 / 2 < r) (h2 : r < f + 1) :
    roundHalfEven r = f + 1 := by
  have hf : ⌊r⌋ = f := by
    rw [Int.floor_eq_iff]
    constructor
    · linarith
    · exact h2
  simp only [roundHalfEven, hf]
  rw [if_neg (by linarith), if_pos (by linarith)]

theorem floor_le_roundHalfEven (r : ℚ) : ⌊r⌋ ≤ roundHalfEven r := by
  simp only [roundHalfEven]
  split_ifs <;> omega

/-- The conversion of a string rounds as `Number` does: `1e-400` underflows to
`0`, `1.0000000000000000001` is `1`, `0.1` is the double next to one tenth, and
`1e400` overflows. -/
theorem stringToNumber_rounds_to_double :
    stringToNumber "1e-400" = .fin 0 ∧
    stringToNumber "1.0000000000000000001" = .fin 1 ∧
    stringToNumber "0.1" = .fin (3602879701896397 / 36028797018963968) ∧
    stringToNumber "1e400" = .posInf := by
  refine ⟨?_, ?_, ?_, ?_⟩
  · have hp : parseNumericLiteral (trimChars "1e-400".data) = some (.decimal false 1 (-400)) := by
      decide
    have he : doubleExponent (scientific 1 (-400)) = -1074 := by
      apply doubleExponent_of_tiny <;> norm_num [scientific]
    have hr : roundHalfEven (scientific 1 (-400) / 2 ^ (-1074 : ℤ)) = 0 := by
      apply roundHalfEven_of_lt_half <;> norm_num [scientific]
    simp only [stringToNumber, hp, NumLit.toNum, JsNum.ofRat]
    rw [if_pos (by norm_num [scientific])]
    simp only [roundMagnitude, he, hr]
    norm_num
  · have hp : parseNumericLiteral (trimChars "1.0000000000000000001".data)
        = some (.decimal false 10000000000000000001 (-19)) := by decide
    have he : doubleExponent (scientific 10000000000000000001 (-19)) = -52 := by
      rw [doubleExponent_of_bounds _ 0 (by norm_num [scientific]) (by norm_num [scientific])
        (by norm_num [scientific])]
      rfl
    have hr : roundHalfEven (scientific 10000000000000000001 (-19) / 2 ^ (-52 : ℤ)) = 2 ^ 52 := by
      apply roundHalfEven_of_lt_half <;> norm_num [scientific]
    simp only [stringToNumber, hp, NumLit.toNum, JsNum.ofRat]
    rw [if_pos (by norm_num [scientific])]
    simp only [roundMagnitude, he, hr]
    norm_num
  · have hp : parseNumericLiteral (trimChars "0.1".data) = some (.decimal false 1 (-1)) := by
      decide
    have he : doubleExponent (scientific 1 (-1)) = -56 := by
      rw [doubleExponent_of_bounds _ (-4) (by norm_num [scientific]) (by norm_num [scientific])
        (by norm_num [scientific])]
      rfl
    have hr : roundHalfEven (scientific 1 (-1) / 2 ^ (-56 : ℤ)) = 7205759403792793 + 1 := by
      apply roundHalfEven_of_gt_half <;> norm_num [scientific]
    simp only [stringToNumber, hp, NumLit.toNum, JsNum.ofRat]
    rw [if_pos (by norm_num [scientific])]
    simp only [roundMagnitude, he, hr]
    norm_num
  · have hp : parseNumericLiteral (trimChars "1e400".data) = some (.decimal false 1 400) := by
      decide
    have he : doubleExponent (scientific 1 400) = 1276 := by
      rw [doubleExponent_of_bounds _ 1328 (by norm_num [scientific]) (by norm_num [scientific])
        (by norm_num [scientific])]
      rfl
    have hfl : (2 : ℤ) ^ 52 ≤ ⌊scientific 1 400 / 2 ^ (1276 : ℤ)⌋ := by
      rw [Int.le_floor]
      norm_num [scientific]
    have hm : ((2 : ℤ) ^ 52 : ℚ) ≤ (roundHalfEven (scientific 1 400 / 2 ^ (1276 : ℤ)) : ℚ) := by
      exact_mod_cast hfl.trans (floor_le_roundHalfEven _)
    simp only [stringToNumber, hp, NumLit.toNum, JsNum.ofRat]
    rw [if_pos (by norm_num [scientific])]
    simp only [roundMagnitude, he]
    rw [if_pos]
    calc (2 : ℚ) ^ (1024 : ℕ) ≤ ((2 : ℤ) ^ 52 : ℚ) * 2 ^ (1276 : ℤ) := by norm_num
      _ ≤ _ := by
        apply mul_le_mul_of_nonneg_right hm
        positivity

theorem truthy_of_one : (JsNum.fin 1).truthy = true := by
  simp [JsNum.truthy]

theorem truthy_of_zero : (JsNum.fin 0).truthy = false := by
  simp [JsNum.truthy]

/-- The path parameter of a delete is rounded as `Number` rounds it: `1e-400`
is zero and is answered 400; `1.0000000000000000001` is 1 and deletes the row
with id 1. -/
theorem deleteDestination_rounds_id :
    deleteDestination demoEnv (deleteRequest "1e-400") demoWorld
      = (.ok ⟨400, errorBody "Invalid id"⟩, demoWorld) ∧
    (deleteDestination demoEnv (deleteRequest "1.0000000000000000001") demoWorld).1
      = .ok ⟨200, okBody⟩ ∧
    (deleteDestination demoEnv (deleteRequest "1.0000000000000000001")
      demoWorld).2.destinationRows = [] := by
  have h0 : stringToNumber (deleteRequest "1e-400").id = .fin 0 :=
    stringToNumber_rounds_to_double.1
  have h1 : stringToNumber (deleteRequest "1.0000000000000000001").id = .fin 1 :=
    stringToNumber_rounds_to_double.2.1
  have hid : (stringToNumber (deleteRequest "1.0000000000000000001").id).truthy = true := by
    rw [h1]; exact truthy_of_one
  have hrun := deleteDestination_run demoEnv (deleteRequest "1.0000000000000000001") demoWorld
    ⟨[⟨1, "Home", .fin 1, .fin 2, 900⟩], 2⟩ ⟨rfl, rfl, rfl⟩ rfl rfl hid
  refine ⟨?_, ?_, ?_⟩
  · simp only [deleteDestination, h0, truthy_of_zero]
    rfl
  · rw [hrun]
  · rw [hrun, h1]
    have he : (JsNum.fin 1).eqNat 1 = true := by simp [JsNum.eqNat]
    simp [World.destinationRows, he]

theorem delete_missing_id_unchanged_and_idempotent_witness :
    ((∀ r ∈ demoWorld.destinationRows, (stringToNumber "7").eqNat r.id = false) →
      (deleteDestination demoEnv (deleteRequest "7") demoWorld).1 = .ok ⟨200, okBody⟩ ∧
      (deleteDestination demoEnv (deleteRequest "7") demoWorld).2.server
        = demoWorld.server) ∧
    (deleteDestination demoEnv (deleteRequest "7")
        (deleteDestination demoEnv (deleteRequest "7") demoWorld).2).1
      = (deleteDestination demoEnv (deleteRequest "7") demoWorld).1 ∧
    (deleteDestination demoEnv (deleteRequest "7")
        (deleteDestination demoEnv (deleteRequest "7") demoWorld).2).2.server
      = (deleteDestination demoEnv (deleteRequest "7") demoWorld).2.server :=
  delete_missing_id_unchanged_and_idempotent demoEnv (deleteRequest "7") demoWorld
    ⟨rfl, rfl, rfl⟩ rfl (by
      show (stringToNumber "7").truthy = true
      rw [stringToNumber_seven]; simp [JsNum.truthy])

/-- Trimming removes a run of white space at each end and nothing else, and
what is left neither starts nor ends with white space. -/
theorem trimChars_spec (cs : List Char) :
    ∃ pre post, cs = pre ++ trimChars cs ++ post ∧
      (∀ c ∈ pre, isJsWhiteSpace c = true) ∧ (∀ c ∈ post, isJsWhiteSpace c = true) ∧
      (∀ c, (trimChars cs).head? = some c → isJsWhiteSpace c = false) ∧
      (∀ c, (trimChars cs).getLast? = some c → isJsWhiteSpace c = false) := by
  have hmid : cs.dropWhile isJsWhiteSpace =
      trimChars cs ++ ((cs.dropWhile isJsWhiteSpace).reverse.takeWhile isJsWhiteSpace).reverse := by
    have h2 := List.takeWhile_append_dropWhile isJsWhiteSpace
      (cs.dropWhile isJsWhiteSpace).reverse
    have h3 := congrArg List.reverse h2
    rw [List.reverse_append, List.reverse_reverse] at h3
    exact h3.symm
  refine ⟨cs.takeWhile isJsWhiteSpace,
    ((cs.dropWhile isJsWhiteSpace).reverse.takeWhile isJsWhiteSpace).reverse, ?_, ?_, ?_, ?_, ?_⟩
  · rw [List.append_assoc, ← hmid, List.takeWhile_append_dropWhile]
  · intro c hc
    exact List.mem_takeWhile_imp hc
  · intro c hc
    exact List.mem_takeWhile_imp (List.mem_reverse.mp hc)
  · intro c hc
    have h := List.head?_dropWhile_not isJsWhiteSpace cs
    rw [hmid, List.head?_append, hc] at h
    simpa using h
  · intro c hc
    have h := List.head?_dropWhile_not isJsWhiteSpace (cs.dropWhile isJsWhiteSpace).reverse
    rw [trimChars, List.getLast?_reverse] at hc
    rw [hc] at h
    exact h

/-- What `POST /api/destinations` does on a ready world without faults when the
name is a string that is not empty after trimming and both coordinates convert
to finite numbers. -/
theorem createDestination_run (env : Env) (req : Request) (w : World) (t : Table DestRow)
    (s : String) (a b : ℚ)
    (hr : Ready w) (hf : w.faults = []) (ht : w.server.destinations = some t)
    (hname : (bodyOrEmpty req).get "name" = .str s) (hs : (jsTrim s).length ≠ 0)
    (hlat : toNumber ((bodyOrEmpty req).get "latitude") = .ok (.fin a))
    (hlng : toNumber ((bodyOrEmpty req).get "longitude") = .ok (.fin b)) :
    createDestination env req w =
      (.ok ⟨201, .obj [("id", .num (.fin t.nextId))]⟩,
        { w with
          log := w.log ++ [.insertDestination]
          server := { w.server with
            destinations :=
              some ⟨t.rows ++ [⟨t.nextId, jsTrim s, .fin a, .fin b, w.now⟩], t.nextId + 1⟩ } }) := by
  simp [createDestination, hname, hlat, hlng, hs, Js.ofExcept, Js.ret, JsNum.isFinite,
    Js.tryCatch, Js.run_bind, createTry, getPool_ready w hr, newDate,
    external_no_fault _ _ w hf, onServer, Server.insertDestination, ht, Js.run_pure]

/-- C4. On a ready world without faults, a create request whose name is a
string that is not empty after trimming and whose latitude and longitude
convert to finite numbers is answered 201 with the id the store assigns, and
the table afterwards is the table before followed by exactly one new row with
that id, the trimmed name, the two converted numbers and the current time; the
users table is untouched.  The stored name is the submitted one without a run
of white space at each end, and `"  Paris  "` is stored as `"Paris"`. -/
theorem create_inserts_one_trimmed_row (env : Env) (req : Request) (w : World)
    (t : Table DestRow) (s : String) (a b : ℚ)
    (hr : Ready w) (hf : w.faults = []) (ht : w.server.destinations = some t)
    (hname : (bodyOrEmpty req).get "name" = .str s) (hs : (jsTrim s).length ≠ 0)
    (hlat : toNumber ((bodyOrEmpty req).get "latitude") = .ok (.fin a))
    (hlng : toNumber ((bodyOrEmpty req).get "longitude") = .ok (.fin b)) :
    (createDestination env req w).1 = .ok ⟨201, .obj [("id", .num (.fin t.nextId))]⟩ ∧
    (createDestination env req w).2.destinationRows
      = w.destinationRows ++ [⟨t.nextId, jsTrim s, .fin a, .fin b, w.now⟩] ∧
    (createDestination env req w).2.userRows = w.userRows ∧
    (∃ pre post, s.data = pre ++ (jsTrim s).data ++ post ∧
      (∀ c ∈ pre, isJsWhiteSpace c = true) ∧ (∀ c ∈ post, isJsWhiteSpace c = true) ∧
      (∀ c, (jsTrim s).data.head? = some c → isJsWhiteSpace c = false) ∧
      (∀ c, (jsTrim s).data.getLast? = some c → isJsWhiteSpace c = false)) ∧
    jsTrim "  Paris  " = "Paris" := by
  rw [createDestination_run env req w t s a b hr hf ht hname hs hlat hlng]
  refine ⟨rfl, ?_, ?_, trimChars_spec s.data, by decide⟩
  · simp [World.destinationRows, ht]
  · simp [World.userRows]

theorem create_inserts_one_trimmed_row_witness :
    (createDestination demoEnv
        parisRequest demoWorld).1
      = .ok ⟨201, .obj [("id", .num (.fin (2 : ℕ)))]⟩ ∧
    (createDestination demoEnv
        parisRequest demoWorld).2.destinationRows
      = demoWorld.destinationRows ++ [⟨2, jsTrim "  Paris  ", .fin 48.8566, .fin 2.3522, 1000⟩] ∧
    (createDestination demoEnv
        parisRequest demoWorld).2.userRows
      = demoWorld.userRows ∧
    (∃ pre post, "  Paris  ".data = pre ++ (jsTrim "  Paris  ").data ++ post ∧
      (∀ c ∈ pre, isJsWhiteSpace c = true) ∧ (∀ c ∈ post, isJsWhiteSpace c = true) ∧
      (∀ c, (jsTrim "  Paris  ").data.head? = some c → isJsWhiteSpace c = false) ∧
      (∀ c, (jsTrim "  Paris  ").data.getLast? = some c → isJsWhiteSpace c = false)) ∧
    jsTrim "  Paris  " = "Paris" :=
  create_inserts_one_trimmed_row demoEnv
    parisRequest demoWorld
    ⟨[⟨1, "Home", .fin 1, .fin 2, 900⟩], 2⟩ "  Paris  " 48.8566 2.3522
    ⟨rfl, rfl, rfl⟩ rfl rfl rfl (by decide) rfl rfl

theorem stringToNumber_empty : stringToNumber "" = .fin 0 := by
  have hp : parseNumericLiteral (trimChars "".data) = some (.integer 0) := by decide
  simp only [stringToNumber, hp, NumLit.toNum, JsNum.ofRat, Nat.cast_zero, le_refl, if_true,
    roundMagnitude_zero]

/-- The validation of `POST /api/destinations`, when both `Number(...)` calls
return: the request goes on to the `try` block exactly when the name is a
string that is not empty after trimming and both numbers are finite, and is
answered 400 otherwise. -/
theorem createDestination_validation (env : Env) (req : Request) (w : World) (lat lng : JsNum)
    (hlat : toNumber ((bodyOrEmpty req).get "latitude") = .ok lat)
    (hlng : toNumber ((bodyOrEmpty req).get "longitude") = .ok lng) :
    (∀ s, (bodyOrEmpty req).get "name" = .str s → (jsTrim s).length ≠ 0 →
      lat.isFinite = true → lng.isFinite = true →
      createDestination env req w = Js.tryCatch (createTry s lat lng) internalError w) ∧
    (nameValid ((bodyOrEmpty req).get "name") = false ∨ lat.isFinite = false ∨
        lng.isFinite = false →
      createDestination env req w =
        (.ok (invalidPayload ((bodyOrEmpty req).get "name") ((bodyOrEmpty req).get "latitude")
          ((bodyOrEmpty req).get "longitude")), w)) := by
  constructor
  · intro s hname hs hl hg
    simp [createDestination, hname, hlat, hlng, hs, hl, hg, Js.ofExcept, Js.ret, Js.run_bind]
  · intro h
    cases hname : (bodyOrEmpty req).get "name" with
    | str s =>
      have hcond : ((jsTrim s).length = 0 ∨ lat.isFinite = false) ∨ lng.isFinite = false := by
        rcases h with h | h | h
        · left; left
          simpa [hname, nameValid] using h
        · left; right; exact h
        · right; exact h
      simp [createDestination, hname, hlat, hlng, Js.ofExcept, Js.ret, Js.run_bind,
        Js.run_pure, hcond]
    | _ =>
      simp [createDestination, hname, hlat, hlng, Js.ofExcept, Js.ret, Js.run_bind,
        Js.run_pure]

/-- C2. Create requests whose latitude is `null`, the empty string or `true`
are not rejected: each is answered 201 and a row is stored, with latitude `0`,
`0` and `1`. -/
theorem create_accepts_null_empty_and_boolean_latitude :
    ((createDestination demoEnv (createRequest (.str "Home") .null (.num (.fin 2))) readyWorld).1
        = .ok ⟨201, .obj [("id", .num (.fin (1 : ℕ)))]⟩ ∧
      (createDestination demoEnv (createRequest (.str "Home") .null (.num (.fin 2)))
        readyWorld).2.destinationRows = [⟨1, "Home", .fin 0, .fin 2, 1000⟩]) ∧
    ((createDestination demoEnv (createRequest (.str "Home") (.str "") (.num (.fin 2)))
        readyWorld).1 = .ok ⟨201, .obj [("id", .num (.fin (1 : ℕ)))]⟩ ∧
      (createDestination demoEnv (createRequest (.str "Home") (.str "") (.num (.fin 2)))
        readyWorld).2.destinationRows = [⟨1, "Home", .fin 0, .fin 2, 1000⟩]) ∧
    ((createDestination demoEnv (createRequest (.str "Home") (.bool true) (.num (.fin 2)))
        readyWorld).1 = .ok ⟨201, .obj [("id", .num (.fin (1 : ℕ)))]⟩ ∧
      (createDestination demoEnv (createRequest (.str "Home") (.bool true) (.num (.fin 2)))
        readyWorld).2.destinationRows = [⟨1, "Home", .fin 1, .fin 2, 1000⟩]) := by
  refine ⟨?_, ?_, ?_⟩
  · rw [createDestination_run demoEnv (createRequest (.str "Home") .null (.num (.fin 2)))
      readyWorld Table.empty "Home" 0 2 ⟨rfl, rfl, rfl⟩ rfl rfl rfl (by decide) rfl rfl]
    exact ⟨rfl, rfl⟩
  · rw [createDestination_run demoEnv (createRequest (.str "Home") (.str "") (.num (.fin 2)))
      readyWorld Table.empty "Home" 0 2 ⟨rfl, rfl, rfl⟩ rfl rfl rfl (by decide) (by
        show toNumber (.str "") = _
        simp [toNumber, toPrimitiveThrows, stringToNumber_empty]) rfl]
    exact ⟨rfl, rfl⟩
  · rw [createDestination_run demoEnv (createRequest (.str "Home") (.bool true) (.num (.fin 2)))
      readyWorld Table.empty "Home" 1 2 ⟨rfl, rfl, rfl⟩ rfl rfl rfl (by decide) rfl rfl]
    exact ⟨rfl, rfl⟩

/-- The builtin `Number` throws exactly on the values whose conversion to a
primitive throws, and then with the `TypeError`. -/
theorem toNumber_of_throws (v : JsVal) :
    (toPrimitiveThrows v = true → toNumber v = .error typeErrorToPrimitive) ∧
    (toPrimitiveThrows v = false → ∃ x, toNumber v = .ok x) := by
  constructor
  · intro h
    simp [toNumber, h]
  · intro h
    cases v with
    | bool b => cases b <;> simp [toNumber, toPrimitiveThrows]
    | _ => simp [toNumber, h]

/-- What `POST /api/destinations` does, on any world, when the latitude
converts to a number that is not finite and `Number(longitude)` returns: the
400 response, and nothing else. -/
theorem createDestination_latitude_not_finite (env : Env) (req : Request) (w : World)
    (lat lng : JsNum)
    (hlat : toNumber ((bodyOrEmpty req).get "latitude") = .ok lat)
    (hlng : toNumber ((bodyOrEmpty req).get "longitude") = .ok lng)
    (hbad : lat.isFinite = false) :
    createDestination env req w =
      (.ok (invalidPayload ((bodyOrEmpty req).get "name") ((bodyOrEmpty req).get "latitude")
        ((bodyOrEmpty req).get "longitude")), w) := by
  cases hname : (bodyOrEmpty req).get "name" <;>
    simp [createDestination, hname, hlat, hlng, hbad, Js.ofExcept, Js.ret, Js.run_bind,
      Js.run_pure]

/-- What `POST /api/destinations` does, on any world, when `Number(latitude)`
returns and `Number(longitude)` throws: the handler rejects with the error, and
nothing else. -/
theorem createDestination_longitude_throws (env : Env) (req : Request) (w : World)
    (lat : JsNum) (e : JsErr)
    (hlat : toNumber ((bodyOrEmpty req).get "latitude") = .ok lat)
    (hlng : toNumber ((bodyOrEmpty req).get "longitude") = .error e) :
    createDestination env req w = (.error e, w) := by
  simp [createDestination, hlat, hlng, Js.ofExcept, Js.ret, Js.throw, Js.run_bind]

/-- C3, as the code has it. For every create request whose latitude converts
to a number that is not finite, on every world: the world is returned
unchanged, so no store call is made and no row is inserted.  When
`Number(longitude)` returns, the response is 400 with the body
`error: 'Invalid payload', details: (nameValid, latitudeReceived,
longitudeReceived)`, where `nameValid` is the flag for the name and the other
two repeat the submitted latitude and longitude; the details have no property
`latitudeValid`.  When `Number(longitude)` throws, which it does exactly for
an object with an own property `toString` or an array holding one, the handler
rejects with that `TypeError` and sends no response. -/
theorem create_invalid_latitude_echoes_received (env : Env) (req : Request) (w : World)
    (lat : JsNum)
    (hlat : toNumber ((bodyOrEmpty req).get "latitude") = .ok lat)
    (hbad : lat.isFinite = false) :
    (createDestination env req w).2 = w ∧
    (toPrimitiveThrows ((bodyOrEmpty req).get "longitude") = false →
      (createDestination env req w).1 =
        .ok ⟨400, .obj [("error", .str "Invalid payload"),
          ("details", .obj [("nameValid", .bool (nameValid ((bodyOrEmpty req).get "name"))),
            ("latitudeReceived", (bodyOrEmpty req).get "latitude"),
            ("longitudeReceived", (bodyOrEmpty req).get "longitude")])]⟩) ∧
    (toPrimitiveThrows ((bodyOrEmpty req).get "longitude") = true →
      (createDestination env req w).1 = .error typeErrorToPrimitive) ∧
    (∀ r, (createDestination env req w).1 = .ok r →
      r.status = 400 ∧ (r.body.get "details").get "latitudeValid" = .undefined) := by
  cases hthrows : toPrimitiveThrows ((bodyOrEmpty req).get "longitude") with
  | true =>
    have hlng := (toNumber_of_throws _).1 hthrows
    rw [createDestination_longitude_throws env req w lat _ hlat hlng]
    refine ⟨rfl, by simp, fun _ => rfl, ?_⟩
    intro r hr
    cases hr
  | false =>
    obtain ⟨lng, hlng⟩ := (toNumber_of_throws _).2 hthrows
    rw [createDestination_latitude_not_finite env req w lat lng hlat hlng hbad]
    refine ⟨rfl, fun _ => rfl, by simp, ?_⟩
    intro r hr
    have : r = invalidPayload ((bodyOrEmpty req).get "name") ((bodyOrEmpty req).get "latitude")
        ((bodyOrEmpty req).get "longitude") := by
      injection hr with h
      exact h.symm
    subst this
    exact ⟨rfl, rfl⟩

theorem stringToNumber_not_a_number : stringToNumber "not-a-number" = .nan := by decide

theorem toNumber_not_a_number :
    toNumber ((bodyOrEmpty badLatitudeRequest).get "latitude") = .ok .nan := by
  show toNumber (.str "not-a-number") = _
  simp [toNumber, toPrimitiveThrows, stringToNumber_not_a_number]

theorem create_invalid_latitude_echoes_received_witness :
    (createDestination demoEnv badLatitudeRequest demoWorld).2 = demoWorld ∧
    (createDestination demoEnv badLatitudeRequest demoWorld).1 =
      .ok ⟨400, .obj [("error", .str "Invalid payload"),
        ("details", .obj [("nameValid", .bool (nameValid ((bodyOrEmpty badLatitudeRequest).get "name"))),
          ("latitudeReceived", (bodyOrEmpty badLatitudeRequest).get "latitude"),
          ("longitudeReceived", (bodyOrEmpty badLatitudeRequest).get "longitude")])]⟩ ∧
    (createDestination demoEnv throwingLongitudeRequest demoWorld).2 = demoWorld ∧
    (createDestination demoEnv throwingLongitudeRequest demoWorld).1
      = .error typeErrorToPrimitive :=
  ⟨(create_invalid_latitude_echoes_received demoEnv badLatitudeRequest demoWorld .nan
      toNumber_not_a_number rfl).1,
    (create_invalid_latitude_echoes_received demoEnv badLatitudeRequest demoWorld .nan
      toNumber_not_a_number rfl).2.1 rfl,
    (create_invalid_latitude_echoes_received demoEnv throwingLongitudeRequest demoWorld .nan
      toNumber_not_a_number rfl).1,
    (create_invalid_latitude_echoes_received demoEnv throwingLongitudeRequest demoWorld .nan
      toNumber_not_a_number rfl).2.2.1 rfl⟩

/-- C3, as stated, fails. For the request with name `Paris`, latitude
`"not-a-number"` and longitude `2.3522`, the 400 body is exactly the one shown:
its details hold the flag `nameValid: true` and the two received values, no
property of the details is the flag `false`, and `latitudeValid` is absent. -/
theorem create_invalid_latitude_has_no_flag :
    (createDestination demoEnv badLatitudeRequest demoWorld).1 =
      .ok ⟨400, .obj [("error", .str "Invalid payload"),
        ("details", .obj [("nameValid", .bool true),
          ("latitudeReceived", .str "not-a-number"),
          ("longitudeReceived", .num (.fin 2.3522))])]⟩ ∧
    (∀ k, (JsVal.obj [("nameValid", .bool true), ("latitudeReceived", .str "not-a-number"),
        ("longitudeReceived", .num (.fin 2.3522))]).get k ≠ .bool false) ∧
    (JsVal.obj [("nameValid", .bool true), ("latitudeReceived", .str "not-a-number"),
        ("longitudeReceived", .num (.fin 2.3522))]).get "latitudeValid" = .undefined := by
  refine ⟨?_, ?_, rfl⟩
  · rw [createDestination_latitude_not_finite demoEnv badLatitudeRequest demoWorld .nan
      (.fin 2.3522) toNumber_not_a_number rfl rfl]
    rfl
  · intro k
    simp only [JsVal.get, lookupKey]
    split_ifs <;> simp

/-- The `try` block of signup on a ready world without faults, for a string
password and an email no user row has: the user is appended. -/
theorem signupTry_fresh (env : Env) (email : JsVal) (pw : String) (w : World)
    (t : Table UserRow) (hr : Ready w) (hf : w.faults = []) (ht : w.server.users = some t)
    (hnew : ∀ u ∈ t.rows, u.email ≠ env.bindVarchar email) :
    signupTry env email (.str pw) w =
      (.ok ⟨201, okBody⟩,
        { w with
          log := w.log ++ [.bcryptHash, .insertUser]
          salts := w.salts.tail
          server := { w.server with
            users := some ⟨t.rows ++ [⟨t.nextId, env.bindVarchar email,
              env.hash (w.salts.head?.getD 0) pw, w.now⟩], t.nextId + 1⟩ } }) := by
  have hany : (t.rows.any fun r => r.email == env.bindVarchar email) = false := by
    rw [List.any_eq_false]
    intro u hu
    simpa using hnew u hu
  simp [signupTry, Js.run_bind, getPool_ready w hr, bcryptHash, external, hf, newDate,
    onServer, Server.insertUser, ht, hany, Js.run_pure]

/-- The `try` block of signup on a ready world without faults, for a string
password and an email some user row has: the insert is rejected as a
duplicate. -/
theorem signupTry_duplicate (env : Env) (email : JsVal) (pw : String) (w : World)
    (t : Table UserRow) (hr : Ready w) (hf : w.faults = []) (ht : w.server.users = some t)
    (hold : ∃ u ∈ t.rows, u.email = env.bindVarchar email) :
    signupTry env email (.str pw) w =
      (.error (duplicateEmail (env.bindVarchar email)),
        { w with
          log := w.log ++ [.bcryptHash, .insertUser]
          salts := w.salts.tail }) := by
  have hany : (t.rows.any fun r => r.email == env.bindVarchar email) = true := by
    rw [List.any_eq_true]
    obtain ⟨u, hu, he⟩ := hold
    exact ⟨u, hu, by simpa using he⟩
  simp [signupTry, Js.run_bind, getPool_ready w hr, bcryptHash, external, hf, newDate,
    onServer, Server.insertUser, ht, hany]

/-- The model of `includes` finds exactly the contiguous occurrences. -/
theorem includesChars_iff (needle hay : List Char) :
    includesChars needle hay = true ↔ needle <:+: hay := by
  induction hay with
  | nil => simp [includesChars, List.isEmpty_iff]
  | cons c cs ih =>
    simp only [includesChars, Bool.or_eq_true, ih, List.isPrefixOf_iff_prefix]
    exact List.infix_cons_iff.symm

/-- The text of the store's uniqueness violation on email contains
`Duplicate`. -/
theorem duplicateEmail_includes (email : String) :
    jsIncludes (duplicateEmail email).str "Duplicate" = true := by
  rw [jsIncludes, includesChars_iff]
  refine ⟨"Error: ".data, (" entry " ++ sqlQuote ++ email ++ sqlQuote ++ " for key " ++
      sqlQuote ++ "users.email" ++ sqlQuote).data, ?_⟩
  simp [duplicateEmail, String.data_append]

/-- A primary-key collision is not the uniqueness violation on email, whatever
the email. -/
theorem duplicatePrimaryKey_ne_duplicateEmail (email : String) :
    duplicatePrimaryKey ≠ duplicateEmail email := by
  intro h
  have h1 := congrArg (fun e => e.str.data.reverse.take 3) h
  have hl : duplicatePrimaryKey.str.data.reverse.take 3 = "'YR".data := by decide
  have hr : (duplicateEmail email).str.data.reverse.take 3 = "'li".data := by
    simp [duplicateEmail, sqlQuote, String.data_append, List.reverse_append]
  simp only [hl, hr] at h1
  exact absurd h1 (by decide)

/-- C7, as the code has it. For a signup request with truthy email and
password: whenever the `try` block raises an error `e`, the response is 409
`Email already in use` if `String(e)` contains `Duplicate` and 500 with
`String(e)` otherwise; the store's uniqueness violation on email is an error
of the first kind; and on a ready world without faults, a signup whose email
some user row already has is answered 409 for every string password. -/
theorem signup_conflict_iff_error_text_has_duplicate (env : Env) (req : Request) (w : World)
    (hemail : ((bodyOrEmpty req).get "email").truthy = true)
    (hpw : ((bodyOrEmpty req).get "password").truthy = true) :
    (∀ e w1, signupTry env ((bodyOrEmpty req).get "email") ((bodyOrEmpty req).get "password") w
        = (.error e, w1) →
      (signup env req w).2 = w1 ∧
      (signup env req w).1 = .ok (if jsIncludes e.str "Duplicate" = true
        then ⟨409, errorBody "Email already in use"⟩ else ⟨500, errorBody e.str⟩)) ∧
    (∀ email, jsIncludes (duplicateEmail email).str "Duplicate" = true) ∧
    (∀ pw t, (bodyOrEmpty req).get "password" = .str pw → Ready w → w.faults = [] →
      w.server.users = some t →
      (∃ u ∈ t.rows, u.email = env.bindVarchar ((bodyOrEmpty req).get "email")) →
      (signup env req w).1 = .ok ⟨409, errorBody "Email already in use"⟩) := by
  have hrun : ∀ e w1,
      signupTry env ((bodyOrEmpty req).get "email") ((bodyOrEmpty req).get "password") w
        = (.error e, w1) →
      signup env req w = (.ok (if jsIncludes e.str "Duplicate" = true
        then ⟨409, errorBody "Email already in use"⟩ else ⟨500, errorBody e.str⟩), w1) := by
    intro e w1 h
    simp only [signup, hemail, hpw, Bool.not_true, Bool.or_self, Bool.false_eq_true, if_false]
    rw [Js.run_tryCatch_error _ _ w w1 e h, signupCatch]
    split_ifs <;> rfl
  refine ⟨?_, duplicateEmail_includes, ?_⟩
  · intro e w1 h
    rw [hrun e w1 h]
    exact ⟨rfl, rfl⟩
  · intro pw t hp hr hf ht hold
    have h := signupTry_duplicate env ((bodyOrEmpty req).get "email") pw w t hr hf ht hold
    rw [← hp] at h
    rw [hrun _ _ h, duplicateEmail_includes]
    rfl

theorem signup_conflict_iff_error_text_has_duplicate_witness :
    (∀ e w1, signupTry demoEnv
        ((bodyOrEmpty (authRequest (.str "ann@example.org") (.str "other"))).get "email")
        ((bodyOrEmpty (authRequest (.str "ann@example.org") (.str "other"))).get "password")
        demoWorld = (.error e, w1) →
      (signup demoEnv (authRequest (.str "ann@example.org") (.str "other")) demoWorld).2 = w1 ∧
      (signup demoEnv (authRequest (.str "ann@example.org") (.str "other")) demoWorld).1
        = .ok (if jsIncludes e.str "Duplicate" = true
          then ⟨409, errorBody "Email already in use"⟩ else ⟨500, errorBody e.str⟩)) ∧
    (∀ email, jsIncludes (duplicateEmail email).str "Duplicate" = true) ∧
    (signup demoEnv (authRequest (.str "ann@example.org") (.str "other")) demoWorld).1
      = .ok ⟨409, errorBody "Email already in use"⟩ :=
  ⟨(signup_conflict_iff_error_text_has_duplicate demoEnv
      (authRequest (.str "ann@example.org") (.str "other")) demoWorld rfl rfl).1,
    (signup_conflict_iff_error_text_has_duplicate demoEnv
      (authRequest (.str "ann@example.org") (.str "other")) demoWorld rfl rfl).2.1,
    (signup_conflict_iff_error_text_has_duplicate demoEnv
      (authRequest (.str "ann@example.org") (.str "other")) demoWorld rfl rfl).2.2
      "other" ⟨[⟨1, "ann@example.org", "$2a$10$secret", 800⟩], 2⟩ rfl ⟨rfl, rfl, rfl⟩ rfl rfl
      ⟨⟨1, "ann@example.org", "$2a$10$secret", 800⟩, by simp, rfl⟩⟩

/-- C7, as stated, fails. On a server whose next insert collides on the primary
key, a signup with an email no user row has is answered 409
`Email already in use`: the error raised is not the uniqueness violation on
email, for any email, but its text contains `Duplicate`. -/
theorem signup_conflict_on_primary_key_collision :
    (signup demoEnv (authRequest (.str "bob@example.org") (.str "pw")) exhaustedWorld).1
      = .ok ⟨409, errorBody "Email already in use"⟩ ∧
    (signupTry demoEnv (.str "bob@example.org") (.str "pw") exhaustedWorld).1
      = .error duplicatePrimaryKey ∧
    (∀ u ∈ exhaustedWorld.userRows, u.email ≠ "bob@example.org") ∧
    (∀ email, duplicatePrimaryKey ≠ duplicateEmail email) := by
  refine ⟨by rfl, by rfl, ?_, duplicatePrimaryKey_ne_duplicateEmail⟩
  intro u hu
  simp [exhaustedWorld, demoWorld, World.userRows] at hu
  subst hu
  decide

/-- The `try` block of login on a ready world without faults when no user row
has the email. -/
theorem loginTry_unknown_email (env : Env) (email password : JsVal) (w : World)
    (hr : Ready w) (hf : w.faults = [])
    (hnone : ∀ u ∈ w.userRows, u.email ≠ env.bindVarchar email) :
    loginTry env email password w =
      (.ok ⟨401, errorBody "Invalid credentials"⟩,
        { w with log := w.log ++ [.selectUserByEmail] }) := by
  obtain ⟨t, ht⟩ := Option.isSome_iff_exists.mp hr.2.2
  have hfilter : t.rows.filter (fun r => r.email == env.bindVarchar email) = [] := by
    rw [List.filter_eq_nil_iff]
    intro u hu
    simpa using hnone u (by simpa [World.userRows, ht] using hu)
  simp [loginTry, Js.run_bind, getPool_ready w hr, external, hf, onServer,
    Server.selectUserByEmail, ht, hfilter, Js.run_pure]

/-- The `try` block of login on a ready world without faults when the query
returns a first row `u`, for a string password: the outcome of the comparison
decides. -/
theorem loginTry_known_email (env : Env) (email : JsVal) (pw : String) (w : World)
    (t : Table UserRow) (u : UserRow) (rest : List UserRow)
    (hr : Ready w) (hf : w.faults = []) (ht : w.server.users = some t)
    (hrows : t.rows.filter (fun r => r.email == env.bindVarchar email) = u :: rest) :
    loginTry env email (.str pw) w =
      (.ok (if env.compare pw u.password_hash = true
          then ⟨200, .obj [("token", .str (env.sign ⟨u.id, u.email⟩ w.now))]⟩
          else ⟨401, errorBody "Invalid credentials"⟩),
        { w with log := w.log ++ [.selectUserByEmail, .bcryptCompare] }) := by
  cases hc : env.compare pw u.password_hash <;>
    simp [loginTry, Js.run_bind, getPool_ready w hr, external, hf, onServer,
      Server.selectUserByEmail, ht, hrows, bcryptCompare, hc, newDate, Js.run_pure]

/-- For a string password: on ready worlds without faults, where no user row
has the email, and where a user row has it but the comparison of the password
with the stored hash of every such row gives `false`, the response is the
same, status 401 with the body `error: 'Invalid credentials'`. -/
theorem login_failures_indistinguishable (env : Env) (req : Request) (w1 w2 : World)
    (pw : String)
    (hemail : ((bodyOrEmpty req).get "email").truthy = true)
    (hpw : (bodyOrEmpty req).get "password" = .str pw) (hne : pw ≠ "")
    (hr1 : Ready w1) (hf1 : w1.faults = []) (hr2 : Ready w2) (hf2 : w2.faults = [])
    (hnone : ∀ u ∈ w1.userRows, u.email ≠ env.bindVarchar ((bodyOrEmpty req).get "email"))
    (hsome : ∃ u ∈ w2.userRows, u.email = env.bindVarchar ((bodyOrEmpty req).get "email"))
    (hbad : ∀ u ∈ w2.userRows, u.email = env.bindVarchar ((bodyOrEmpty req).get "email") →
      env.compare pw u.password_hash = false) :
    (login env req w1).1 = .ok ⟨401, errorBody "Invalid credentials"⟩ ∧
    (login env req w2).1 = .ok ⟨401, errorBody "Invalid credentials"⟩ ∧
    (login env req w1).1 = (login env req w2).1 := by
  have hpt : ((bodyOrEmpty req).get "password").truthy = true := by
    rw [hpw]; simpa [JsVal.truthy] using hne
  have h1 : (login env req w1).1 = .ok ⟨401, errorBody "Invalid credentials"⟩ := by
    simp only [login, hemail, hpt, Bool.not_true, Bool.or_self, Bool.false_eq_true, if_false]
    rw [Js.run_tryCatch_ok _ _ _ _ _ (loginTry_unknown_email env _ _ w1 hr1 hf1 hnone)]
  have h2 : (login env req w2).1 = .ok ⟨401, errorBody "Invalid credentials"⟩ := by
    obtain ⟨t, ht⟩ := Option.isSome_iff_exists.mp hr2.2.2
    obtain ⟨u0, hu0, he0⟩ := hsome
    have hmem : u0 ∈ t.rows.filter
        (fun r => r.email == env.bindVarchar ((bodyOrEmpty req).get "email")) := by
      rw [List.mem_filter]
      exact ⟨by simpa [World.userRows, ht] using hu0, by simpa using he0⟩
    cases hrows : t.rows.filter
        (fun r => r.email == env.bindVarchar ((bodyOrEmpty req).get "email")) with
    | nil => rw [hrows] at hmem; cases hmem
    | cons u rest =>
      have hu : u ∈ t.rows.filter
          (fun r => r.email == env.bindVarchar ((bodyOrEmpty req).get "email")) := by
        rw [hrows]; exact List.mem_cons_self _ _
      rw [List.mem_filter] at hu
      have hcmp := hbad u (by simpa [World.userRows, ht] using hu.1) (by simpa using hu.2)
      simp only [login, hemail, hpt, Bool.not_true, Bool.or_self, Bool.false_eq_true, if_false]
      rw [hpw, Js.run_tryCatch_ok _ _ _ _ _
        (loginTry_known_email env _ pw w2 t u rest hr2 hf2 ht hrows), hcmp]
      rfl
  exact ⟨h1, h2, h1.trans h2.symm⟩

/-- C6. The login request with email `ann@example.org` and the truthy password
`7` passes the test for missing fields.  On the server where a user row has
that email, `bcrypt.compare` rejects the number and the response is 500 with
the library error; on a server where no user row has it, and likewise for an
email no row has on the first server, the response is 401
`Invalid credentials`.  The two failure cases are told apart. -/
theorem login_number_password_tells_known_email :
    ((bodyOrEmpty (authRequest (.str "ann@example.org") (.num (.fin 7)))).get "email").truthy
      = true ∧
    ((bodyOrEmpty (authRequest (.str "ann@example.org") (.num (.fin 7)))).get "password").truthy
      = true ∧
    demoWorld.userRows = [⟨1, "ann@example.org", "$2a$10$secret", 800⟩] ∧
    readyWorld.userRows = [] ∧
    (login demoEnv (authRequest (.str "ann@example.org") (.num (.fin 7))) demoWorld).1
      = .ok ⟨500, errorBody "Error: Illegal arguments: number, string"⟩ ∧
    (login demoEnv (authRequest (.str "ann@example.org") (.num (.fin 7))) readyWorld).1
      = .ok ⟨401, errorBody "Invalid credentials"⟩ ∧
    (login demoEnv (authRequest (.str "bob@example.org") (.num (.fin 7))) demoWorld).1
      = .ok ⟨401, errorBody "Invalid credentials"⟩ := by
  have ht : (JsVal.num (.fin 7)).truthy = true := by
    simp [JsVal.truthy, JsNum.truthy]
  have hpa : (bodyOrEmpty (authRequest (.str "ann@example.org") (.num (.fin 7)))).get
      "password" = .num (.fin 7) := rfl
  have hea : (bodyOrEmpty (authRequest (.str "ann@example.org") (.num (.fin 7)))).get
      "email" = .str "ann@example.org" := rfl
  have hpb : (bodyOrEmpty (authRequest (.str "bob@example.org") (.num (.fin 7)))).get
      "password" = .num (.fin 7) := rfl
  have heb : (bodyOrEmpty (authRequest (.str "bob@example.org") (.num (.fin 7)))).get
      "email" = .str "bob@example.org" := rfl
  refine ⟨by rw [hea]; decide, by rw [hpa]; exact ht, rfl, rfl, ?_, ?_, ?_⟩
  · simp only [login, hpa, hea, ht, JsVal.truthy]
    rfl
  · simp only [login, hpa, hea, ht, JsVal.truthy]
    rfl
  · simp only [login, hpb, heb, ht, JsVal.truthy]
    rfl

/-- C8. On a ready world without faults, for a truthy email that no user row
has and a non-empty string password whose comparison with its own hash
succeeds: signup answers 201 `ok: true` and the users table afterwards is the
table before followed by exactly one row, for that email, holding the hash of
the password; and on every ready world without faults whose users table is the
one signup left, login with the same request answers 200 with the token signed
for the new row. -/
theorem signup_then_login_succeeds (env : Env) (req : Request) (w : World)
    (t : Table UserRow) (pw : String)
    (hemail : ((bodyOrEmpty req).get "email").truthy = true)
    (hpw : (bodyOrEmpty req).get "password" = .str pw) (hne : pw ≠ "")
    (hr : Ready w) (hf : w.faults = []) (ht : w.server.users = some t)
    (hnew : ∀ u ∈ t.rows, u.email ≠ env.bindVarchar ((bodyOrEmpty req).get "email"))
    (hcmp : ∀ salt, env.compare pw (env.hash salt pw) = true) :
    (signup env req w).1 = .ok ⟨201, okBody⟩ ∧
    (signup env req w).2.userRows = w.userRows ++
      [⟨t.nextId, env.bindVarchar ((bodyOrEmpty req).get "email"),
        env.hash (w.salts.head?.getD 0) pw, w.now⟩] ∧
    (signup env req w).2.destinationRows = w.destinationRows ∧
    (∀ w2, Ready w2 → w2.faults = [] → w2.server.users = (signup env req w).2.server.users →
      (login env req w2).1 = .ok ⟨200, .obj [("token",
        .str (env.sign ⟨t.nextId, env.bindVarchar ((bodyOrEmpty req).get "email")⟩ w2.now))]⟩) := by
  have hpt : ((bodyOrEmpty req).get "password").truthy = true := by
    rw [hpw]; simpa [JsVal.truthy] using hne
  have hs : signup env req w =
      (.ok ⟨201, okBody⟩,
        { w with
          log := w.log ++ [.bcryptHash, .insertUser]
          salts := w.salts.tail
          server := { w.server with
            users := some ⟨t.rows ++ [⟨t.nextId, env.bindVarchar ((bodyOrEmpty req).get "email"),
              env.hash (w.salts.head?.getD 0) pw, w.now⟩], t.nextId + 1⟩ } }) := by
    simp only [signup, hemail, hpt, Bool.not_true, Bool.or_self, Bool.false_eq_true, if_false]
    rw [hpw, Js.run_tryCatch_ok _ _ _ _ _ (signupTry_fresh env _ pw w t hr hf ht hnew)]
  rw [hs]
  refine ⟨rfl, ?_, ?_, ?_⟩
  · simp [World.userRows, ht]
  · simp [World.destinationRows]
  · intro w2 hr2 hf2 hu2
    have hfilter : (t.rows ++ [(⟨t.nextId, env.bindVarchar ((bodyOrEmpty req).get "email"),
          env.hash (w.salts.head?.getD 0) pw, w.now⟩ : UserRow)]).filter
        (fun r => r.email == env.bindVarchar ((bodyOrEmpty req).get "email"))
        = [⟨t.nextId, env.bindVarchar ((bodyOrEmpty req).get "email"),
          env.hash (w.salts.head?.getD 0) pw, w.now⟩] := by
      rw [List.filter_append]
      have h0 : t.rows.filter
          (fun r => r.email == env.bindVarchar ((bodyOrEmpty req).get "email")) = [] := by
        rw [List.filter_eq_nil_iff]
        intro u hu
        simpa using hnew u hu
      simp [h0]
    simp only [login, hemail, hpt, Bool.not_true, Bool.or_self, Bool.false_eq_true, if_false]
    rw [hpw, Js.run_tryCatch_ok _ _ _ _ _
      (loginTry_known_email env _ pw w2 _ _ [] hr2 hf2 hu2 hfilter), hcmp]
    rfl

theorem signup_then_login_succeeds_witness :
    (signup demoEnv (authRequest (.str "bob@example.org") (.str "pw")) demoWorld).1
      = .ok ⟨201, okBody⟩ ∧
    (signup demoEnv (authRequest (.str "bob@example.org") (.str "pw")) demoWorld).2.userRows
      = demoWorld.userRows ++ [⟨2, "bob@example.org", "$2a$10$pw", 1000⟩] ∧
    (login demoEnv (authRequest (.str "bob@example.org") (.str "pw"))
        (signup demoEnv (authRequest (.str "bob@example.org") (.str "pw")) demoWorld).2).1
      = .ok ⟨200, .obj [("token", .str "token-for-bob@example.org")]⟩ :=
  ⟨(signup_then_login_succeeds demoEnv (authRequest (.str "bob@example.org") (.str "pw"))
      demoWorld ⟨[⟨1, "ann@example.org", "$2a$10$secret", 800⟩], 2⟩ "pw" rfl rfl (by decide)
      ⟨rfl, rfl, rfl⟩ rfl rfl (by intro u hu; simp at hu; subst hu; decide)
      (by intro salt; simp [demoEnv])).1,
    (signup_then_login_succeeds demoEnv (authRequest (.str "bob@example.org") (.str "pw"))
      demoWorld ⟨[⟨1, "ann@example.org", "$2a$10$secret", 800⟩], 2⟩ "pw" rfl rfl (by decide)
      ⟨rfl, rfl, rfl⟩ rfl rfl (by intro u hu; simp at hu; subst hu; decide)
      (by intro salt; simp [demoEnv])).2.1,
    (signup_then_login_succeeds demoEnv (authRequest (.str "bob@example.org") (.str "pw"))
      demoWorld ⟨[⟨1, "ann@example.org", "$2a$10$secret", 800⟩], 2⟩ "pw" rfl rfl (by decide)
      ⟨rfl, rfl, rfl⟩ rfl rfl (by intro u hu; simp at hu; subst hu; decide)
      (by intro salt; simp [demoEnv])).2.2.2 _ ⟨rfl, rfl, rfl⟩ rfl rfl⟩

theorem insertDesc_perm (r : DestRow) (l : List DestRow) : (insertDesc r l).Perm (r :: l) := by
  induction l with
  | nil => exact List.Perm.refl _
  | cons x xs ih =>
    simp only [insertDesc]
    split_ifs
    · exact List.Perm.refl _
    · exact (List.Perm.cons x ih).trans (List.Perm.swap r x xs)

theorem insertDesc_sorted (r : DestRow) (l : List DestRow)
    (h : l.Pairwise (fun a b => b.created_at ≤ a.created_at)) :
    (insertDesc r l).Pairwise (fun a b => b.created_at ≤ a.created_at) := by
  induction l with
  | nil => simp [insertDesc]
  | cons x xs ih =>
    rw [List.pairwise_cons] at h
    simp only [insertDesc]
    split_ifs with hlt
    · rw [List.pairwise_cons]
      refine ⟨?_, List.pairwise_cons.mpr h⟩
      intro b hb
      rcases List.mem_cons.mp hb with hb | hb
      · subst hb; exact Nat.le_of_lt hlt
      · exact Nat.le_trans (h.1 b hb) (Nat.le_of_lt hlt)
    · rw [List.pairwise_cons]
      refine ⟨?_, ih h.2⟩
      intro b hb
      rcases List.mem_cons.mp ((insertDesc_perm r xs).subset hb) with hb | hb
      · subst hb; exact Nat.le_of_not_lt hlt
      · exact h.1 b hb

theorem foldl_insertDesc (rows acc : List DestRow)
    (h : acc.Pairwise (fun a b => b.created_at ≤ a.created_at)) :
    (rows.foldl (fun acc r => insertDesc r acc) acc).Perm (rows ++ acc) ∧
    (rows.foldl (fun acc r => insertDesc r acc) acc).Pairwise
      (fun a b => b.created_at ≤ a.created_at) := by
  induction rows generalizing acc with
  | nil => exact ⟨List.Perm.refl _, h⟩
  | cons r rs ih =>
    obtain ⟨hp, hs⟩ := ih (insertDesc r acc) (insertDesc_sorted r acc h)
    refine ⟨?_, hs⟩
    refine hp.trans ?_
    refine (List.Perm.append_left rs (insertDesc_perm r acc)).trans ?_
    exact List.perm_middle

/-- The stable sort is an order the server may produce. -/
theorem stableDesc_valid : ValidOrder stableDesc := by
  intro rows
  have h := foldl_insertDesc rows [] List.Pairwise.nil
  simpa [stableDesc] using h

/-- What `GET /api/destinations` does on a ready world without faults. -/
theorem listDestinations_run (env : Env) (req : Request) (w : World)
    (hr : Ready w) (hf : w.faults = []) :
    listDestinations env req w =
      (.ok ⟨200, .arr ((env.order w.destinationRows).map DestRow.toJson)⟩,
        { w with log := w.log ++ [.selectDestinations] }) := by
  obtain ⟨t, ht⟩ := Option.isSome_iff_exists.mp hr.2.1
  simp [listDestinations, Js.tryCatch, Js.run_bind, getPool_ready w hr, external, hf, onServer,
    Server.selectDestinations, ht, World.destinationRows, Js.run_pure]

/-- In a list sorted latest first, a row strictly newer than all others of the
list comes first. -/
theorem head_of_sorted_perm (l rows : List DestRow) (new : DestRow)
    (hp : l.Perm (rows ++ [new]))
    (hs : l.Pairwise (fun a b => b.created_at ≤ a.created_at))
    (hnew : ∀ r ∈ rows, r.created_at < new.created_at) : l.head? = some new := by
  cases l with
  | nil =>
    have := hp.length_eq
    simp at this
  | cons x xs =>
    rw [List.pairwise_cons] at hs
    have hx : x ∈ rows ++ [new] := hp.subset (List.mem_cons_self _ _)
    have hn : new ∈ x :: xs := hp.symm.subset (by simp)
    rcases List.mem_append.mp hx with hx | hx
    · rcases List.mem_cons.mp hn with hn | hn
      · rw [hn]; rfl
      · exact absurd (hs.1 new hn) (Nat.not_le_of_lt (hnew x hx))
    · simp at hx
      rw [hx]; rfl

/-- C9, as the code has it. The server order being any order that
`ORDER BY created_at DESC` allows: on every ready world without faults `GET`
answers 200 with the rows of the table in the server order, which holds each
row of the table once and is sorted by timestamp, latest first; and after a
successful create on a world where every row already stored has a timestamp
strictly before the current time, the first row of the listing is the new
row. -/
theorem list_sorted_and_new_row_first_when_strictly_newest (env : Env) (creq lreq : Request)
    (w : World) (t : Table DestRow) (s : String) (a b : ℚ)
    (hv : ValidOrder env.order)
    (hr : Ready w) (hf : w.faults = []) (ht : w.server.destinations = some t)
    (hname : (bodyOrEmpty creq).get "name" = .str s) (hs : (jsTrim s).length ≠ 0)
    (hlat : toNumber ((bodyOrEmpty creq).get "latitude") = .ok (.fin a))
    (hlng : toNumber ((bodyOrEmpty creq).get "longitude") = .ok (.fin b))
    (hold : ∀ r ∈ t.rows, r.created_at < w.now) :
    (∀ w0, Ready w0 → w0.faults = [] →
      (listDestinations env lreq w0).1
        = .ok ⟨200, .arr ((env.order w0.destinationRows).map DestRow.toJson)⟩ ∧
      (env.order w0.destinationRows).Perm w0.destinationRows ∧
      (env.order w0.destinationRows).Pairwise (fun x y => y.created_at ≤ x.created_at)) ∧
    (createDestination env creq w).1 = .ok ⟨201, .obj [("id", .num (.fin t.nextId))]⟩ ∧
    (listDestinations env lreq (createDestination env creq w).2).1
      = .ok ⟨200, .arr ((env.order (createDestination env creq w).2.destinationRows).map
          DestRow.toJson)⟩ ∧
    (env.order (createDestination env creq w).2.destinationRows).head?
      = some ⟨t.nextId, jsTrim s, .fin a, .fin b, w.now⟩ := by
  have hgen : ∀ w0, Ready w0 → w0.faults = [] →
      (listDestinations env lreq w0).1
        = .ok ⟨200, .arr ((env.order w0.destinationRows).map DestRow.toJson)⟩ ∧
      (env.order w0.destinationRows).Perm w0.destinationRows ∧
      (env.order w0.destinationRows).Pairwise (fun x y => y.created_at ≤ x.created_at) := by
    intro w0 hr0 hf0
    rw [listDestinations_run env lreq w0 hr0 hf0]
    exact ⟨rfl, (hv _).1, (hv _).2⟩
  have hc := createDestination_run env creq w t s a b hr hf ht hname hs hlat hlng
  have hr1 : Ready (createDestination env creq w).2 := by
    rw [hc]; exact ⟨hr.1, rfl, hr.2.2⟩
  have hf1 : (createDestination env creq w).2.faults = [] := by
    rw [hc]; exact hf
  have hrows : (createDestination env creq w).2.destinationRows
      = t.rows ++ [⟨t.nextId, jsTrim s, .fin a, .fin b, w.now⟩] := by
    rw [hc]; simp [World.destinationRows]
  refine ⟨hgen, by rw [hc], (hgen _ hr1 hf1).1, ?_⟩
  apply head_of_sorted_perm _ t.rows
  · rw [← hrows]; exact (hv _).1
  · exact (hv _).2
  · exact hold

theorem list_sorted_and_new_row_first_when_strictly_newest_witness :
    (∀ w0, Ready w0 → w0.faults = [] →
      (listDestinations demoEnv listRequest w0).1
        = .ok ⟨200, .arr ((demoEnv.order w0.destinationRows).map DestRow.toJson)⟩ ∧
      (demoEnv.order w0.destinationRows).Perm w0.destinationRows ∧
      (demoEnv.order w0.destinationRows).Pairwise (fun x y => y.created_at ≤ x.created_at)) ∧
    (createDestination demoEnv parisRequest demoWorld).1
      = .ok ⟨201, .obj [("id", .num (.fin (2 : ℕ)))]⟩ ∧
    (listDestinations demoEnv listRequest (createDestination demoEnv parisRequest demoWorld).2).1
      = .ok ⟨200, .arr ((demoEnv.order
          (createDestination demoEnv parisRequest demoWorld).2.destinationRows).map
          DestRow.toJson)⟩ ∧
    (demoEnv.order (createDestination demoEnv parisRequest demoWorld).2.destinationRows).head?
      = some ⟨2, jsTrim "  Paris  ", .fin 48.8566, .fin 2.3522, 1000⟩ :=
  list_sorted_and_new_row_first_when_strictly_newest demoEnv parisRequest listRequest demoWorld
    ⟨[⟨1, "Home", .fin 1, .fin 2, 900⟩], 2⟩ "  Paris  " 48.8566 2.3522 stableDesc_valid
    ⟨rfl, rfl, rfl⟩ rfl rfl rfl (by decide) rfl rfl
    (by intro r hr; simp at hr; subst hr; decide)

/-- C9, as stated, fails. With a server that keeps rows of equal timestamp in
table order, which `ORDER BY created_at DESC` allows, a destination created at
the very timestamp of the row already stored is listed second, after that
row. -/
theorem list_new_row_second_on_equal_timestamp :
    ValidOrder demoEnv.order ∧
    (createDestination demoEnv parisRequest tieWorld).1
      = .ok ⟨201, .obj [("id", .num (.fin (2 : ℕ)))]⟩ ∧
    (listDestinations demoEnv listRequest (createDestination demoEnv parisRequest tieWorld).2).1
      = .ok ⟨200, .arr [DestRow.toJson ⟨1, "Home", .fin 1, .fin 2, 900⟩,
          DestRow.toJson ⟨2, "Paris", .fin 48.8566, .fin 2.3522, 900⟩]⟩ := by
  have hc := createDestination_run demoEnv parisRequest tieWorld
    ⟨[⟨1, "Home", .fin 1, .fin 2, 900⟩], 2⟩ "  Paris  " 48.8566 2.3522
    ⟨rfl, rfl, rfl⟩ rfl rfl rfl (by decide) rfl rfl
  refine ⟨stableDesc_valid, by rw [hc], ?_⟩
  have hl := listDestinations_run demoEnv listRequest
    (createDestination demoEnv parisRequest tieWorld).2
    (by rw [hc]; exact ⟨rfl, rfl, rfl⟩) (by rw [hc]; rfl)
  rw [hl, hc]
  have ht : jsTrim "  Paris  " = "Paris" := by decide
  simp [World.destinationRows, demoEnv, stableDesc, insertDesc, ht, tieWorld]

/-- C10. Two callers that enter `getPool` on a fresh process and are resumed in
turn both pass the test `!pool`: two bootstrap connections are opened and two
pools are created.  And a caller that enters once the first caller has assigned
`pool` but is still waiting for `CREATE TABLE` receives the pool while neither
table exists. -/
theorem getPool_concurrent_callers_create_two_pools :
    (runSchedule [0, 1, 0, 1, 0, 1, 0, 1, 0, 1, 0, 1] ([.entry, .entry], freshWorld)).1
      = [.returned (some 1), .returned (some 1)] ∧
    (runSchedule [0, 1, 0, 1, 0, 1, 0, 1, 0, 1, 0, 1]
      ([.entry, .entry], freshWorld)).2.log.count .createConnection = 2 ∧
    (runSchedule [0, 1, 0, 1, 0, 1, 0, 1, 0, 1, 0, 1]
      ([.entry, .entry], freshWorld)).2.log.count .createPool = 2 ∧
    (runSchedule [0, 0, 0, 0, 1] ([.entry, .entry], freshWorld)).1
      = [.awaitDestinations, .returned (some 0)] ∧
    (runSchedule [0, 0, 0, 0, 1] ([.entry, .entry], freshWorld)).2.server.destinations = none ∧
    (runSchedule [0, 0, 0, 0, 1] ([.entry, .entry], freshWorld)).2.server.users = none := by
  decide

/-- From a process without a pool and with no faults imposed, `getPool`
succeeds and leaves a ready world: tables that existed keep their rows, the
others are created empty. -/
theorem getPool_establishes_ready (w : World) (hp : w.pool = none) (hf : w.faults = []) :
    (getPool w).1 = .ok (some (w.log.count .createPool)) ∧
    Ready (getPool w).2 ∧
    (getPool w).2.destinationRows = w.destinationRows ∧
    (getPool w).2.userRows = w.userRows := by
  cases hd : w.server.destinations <;> cases hu : w.server.users <;>
    simp [getPool, Js.run_bind, readPool, hp, mysqlCreateConnection, bootstrapQuery,
      bootstrapEnd, mysqlCreatePool, writePool, poolQueryDestinations, poolQueryUsers,
      external, hf, onServer, Js.ret, Server.createDatabase, Server.createDestinationsTable,
      Server.createUsersTable, hd, hu, Ready, World.destinationRows, World.userRows,
      Table.empty, Js.run_pure]

/-- A lone caller resumed six times has run `getPool`: same result, same
world. -/
theorem getPool_agrees_with_steps (w : World) :
    (runAlone 6 (.entry, w)).1.outcome = some (getPool w).1 ∧
    (runAlone 6 (.entry, w)).2 = (getPool w).2 := by
  cases hp : w.pool with
  | some p =>
    simp [runAlone, getPoolStep, hp, Pc.outcome, getPool, Js.run_bind, readPool, Js.run_pure]
  | none =>
    rcases hf : w.faults with _ | ⟨_ | e1, _ | ⟨_ | e2, _ | ⟨_ | e3, _ | ⟨_ | e4, _ | ⟨_ | e5, f5⟩⟩⟩⟩⟩ <;>
      simp [runAlone, getPoolStep, resumeWith, hp, Pc.outcome, getPool, Js.run_bind, readPool,
        mysqlCreateConnection, bootstrapQuery, bootstrapEnd, mysqlCreatePool, writePool,
        poolQueryDestinations, poolQueryUsers, external, hf, onServer, Js.ret,
        Server.createDatabase, Js.run_pure] <;>
      (cases hr : (Server.createDestinationsTable
          { hasDatabase := true, destinations := w.server.destinations,
            users := w.server.users }) with
        | mk r1 s1 =>
          cases r1 <;> simp [hr] <;>
          (cases hr2 : (Server.createUsersTable s1) with
            | mk r2 s2 => cases r2 <;> simp [hr2]))

/-- The string functions and the numeric grammar on sample inputs. -/
theorem string_model_samples :
    jsTrim "  Paris  " = "Paris" ∧
    jsStartsWith "Bearer abc" "Bearer " = true ∧
    jsSlice "Bearer abc" 7 = "abc" ∧
    jsIncludes "Error: Duplicate entry" "Duplicate" = true ∧
    parseNumericLiteral "48.8566".data = some (.decimal false 488566 (-4)) ∧
    parseNumericLiteral "-1e3".data = some (.decimal true 1 3) ∧
    parseNumericLiteral "0x1F".data = some (.integer 31) ∧
    parseNumericLiteral "not-a-number".data = none ∧
    parseNumericLiteral "5.".data = some (.decimal false 5 0) ∧
    parseNumericLiteral ".".data = none ∧
    parseNumericLiteral "1e".data = none ∧
    parseNumericLiteral "-Infinity".data = some (.infinity true) := by
  decide

end WakeMeUp
